import Mathlib

/-!
Verification of the dbus-deviation interface comparator
(`dbusdeviation/interfacecomparator.py`) and of the recovery-mode
behaviour of the D-Bus introspection-XML validating parser
(`dbusapi.ast.parse`; the parser module itself is not among the sources,
only its test suite is, so the parser is modelled from the spec).

The Python code is embedded shallowly: the mutable `self._output` list of
`InterfaceComparator` becomes an explicit output accumulator threaded
through the `compare_*` functions; the Python `dict`s (interface, method,
signal, property and their annotations mappings) become association lists
in insertion order.
-/

/-- An output entry of the comparator: a severity level (0, 1 or 2, the
integer constants of the Python class) paired with the message text. -/
abbrev Msg := Nat × String

/-- Severity constant `InterfaceComparator.OUTPUT_INFO`. -/
def OUTPUT_INFO : Nat := 0

/-- Severity constant `InterfaceComparator.OUTPUT_FORWARDS_INCOMPATIBLE`. -/
def OUTPUT_FORWARDS_INCOMPATIBLE : Nat := 1

/-- Severity constant `InterfaceComparator.OUTPUT_BACKWARDS_INCOMPATIBLE`. -/
def OUTPUT_BACKWARDS_INCOMPATIBLE : Nat := 2

/-- The module-level `WARNING_CATEGORIES` list. -/
def WARNING_CATEGORIES : List String :=
  ["info", "backwards-compatibility", "forwards-compatibility"]

/-- First-match association-list lookup: the embedding of a Python `dict`
access `m[k]` (and of the membership test `k in m`, via `Option.isSome`)
for the name-keyed mappings of interfaces, methods, signals and
properties, whose keys are unique. -/
def lookupAssoc {α : Type} : List (String × α) → String → Option α
  | [], _ => none
  | p :: rest, k => if p.1 = k then some p.2 else lookupAssoc rest k

/-- Annotation-mapping lookup.  Python `dict` insertion overwrites an
existing key, so when the grammar admits duplicate annotation names on one
node the LAST binding wins; this lookup returns the last matching value. -/
def lookupAnn : List (String × String) → String → Option String
  | [], _ => none
  | (k, v) :: rest, n =>
    match lookupAnn rest n with
    | some r => some r
    | none => if k = n then some v else none

/-- An `<arg>` AST node (`dbusapi.ast.ASTArgument`).  The `ast` module is
not among the sources; the fields follow the spec's data model: a declared
type, an optional name (empty string when the attribute is absent, the
argument is then displayed as "unnamed"), an optional direction (empty
string when absent) and the 0-based positional index assigned at parse
time. -/
structure ASTArgument where
  name : String
  type : String
  direction : String
  index : Nat
  annotations : List (String × String)
deriving DecidableEq, Repr

/-- A `<method>` AST node (`dbusapi.ast.ASTMethod`): a name, a
position-significant argument list and the annotations mapping. -/
structure ASTMethod where
  name : String
  arguments : List ASTArgument
  annotations : List (String × String)
deriving DecidableEq, Repr

/-- A `<signal>` AST node.  Signals carry exactly the same data as
methods (name, ordered arguments, annotations). -/
abbrev ASTSignal := ASTMethod

/-- A `<property>` AST node (`dbusapi.ast.ASTProperty`): name, opaque
declared type string, access mode string and annotations. -/
structure ASTProperty where
  name : String
  type : String
  access : String
  annotations : List (String × String)
deriving DecidableEq, Repr

/-- Access-mode constant `ASTProperty.ACCESS_READ`.  Modelled from the
spec: the `ast` module is not among the sources; the spec fixes the access
modes to the enum `{read, write, readwrite}` and the test XML uses those
literal attribute values. -/
def ASTProperty.ACCESS_READ : String := "read"

/-- Access-mode constant `ASTProperty.ACCESS_WRITE` (see `ACCESS_READ`). -/
def ASTProperty.ACCESS_WRITE : String := "write"

/-- Access-mode constant `ASTProperty.ACCESS_READWRITE` (see
`ACCESS_READ`). -/
def ASTProperty.ACCESS_READWRITE : String := "readwrite"

/-- An `<interface>` AST node (`dbusapi.ast.ASTInterface`): a name and the
ordered name-keyed mappings of methods, properties and signals, plus the
interface's own annotations. -/
structure ASTInterface where
  name : String
  methods : List (String × ASTMethod)
  properties : List (String × ASTProperty)
  signals : List (String × ASTSignal)
  annotations : List (String × String)
deriving DecidableEq, Repr

/-- The view of an AST node taken by `_compare_annotations`: its
`format_name()` string, its annotations, whether it is an `ASTProperty`
(the `isinstance` test of `_get_emits_changed_signal_annotation`), and for
a property the annotations of its declaring interface (the
`node.interface` back-reference the recursion follows). -/
structure AnnNode where
  format_name : String
  annotations : List (String × String)
  is_property : Bool
  iface_annotations : List (String × String)
deriving DecidableEq, Repr

/-- Qualified name of an interface node.  Modelled from the spec: the
`ast` module's `format_name` is not among the sources; test evidence
(`Duplicate interface definition ‘I’.`) shows an interface's qualified
name is its plain name. -/
def ifaceNode (i : ASTInterface) : AnnNode :=
  ⟨i.name, i.annotations, false, []⟩

/-- Qualified name of a method or signal: `interface.member`, per the test
evidence `Duplicate method definition ‘I.M’.` (modelled from the spec, see
`ifaceNode`). -/
def memberFormatName (iface_name member_name : String) : String :=
  iface_name ++ "." ++ member_name

/-- The `AnnNode` view of a method (or signal) declared in the interface
named `iface_name`. -/
def methodNode (iface_name : String) (m : ASTMethod) : AnnNode :=
  ⟨memberFormatName iface_name m.name, m.annotations, false, []⟩

/-- The `AnnNode` view of a property together with its declaring
interface, whose annotations the Emits-changed-signal lookup falls back
to. -/
def propNode (i : ASTInterface) (p : ASTProperty) : AnnNode :=
  ⟨memberFormatName i.name p.name, p.annotations, true, i.annotations⟩

/-- Display name of an argument: its name, or `unnamed` when the name is
absent (modelled from the spec's data model and the test message
`Unknown node ‘badnode’ in argument ‘unnamed’.`). -/
def argFormatName (a : ASTArgument) : String :=
  if a.name = "" then "unnamed" else a.name

/-- The `AnnNode` view of an argument. -/
def argNode (a : ASTArgument) : AnnNode :=
  ⟨argFormatName a, a.annotations, false, []⟩

/-- Embedding of `self._issue_output(level, message)`: append one entry to
the output accumulator. -/
def issue_output (out : List Msg) (level : Nat) (message : String) : List Msg :=
  out ++ [(level, message)]

/-- Embedding of `InterfaceComparator._get_string_annotation`. -/
def get_string_ann (node : AnnNode) (ann_name : String) (dflt : String) : String :=
  match lookupAnn node.annotations ann_name with
  | some v => v
  | none => dflt

/-- Embedding of `InterfaceComparator._get_bool_annotation`: present means
the value compared with the string `true`, absent means the default. -/
def get_bool_ann (node : AnnNode) (ann_name : String) (dflt : Bool) : Bool :=
  match lookupAnn node.annotations ann_name with
  | some v => v == "true"
  | none => dflt

/-- Name of the Emits-changed-signal well-known annotation. -/
def ecsAnnName : String := "org.freedesktop.DBus.Property.EmitsChangedSignal"

/-- Embedding of `_get_emits_changed_signal_annotation`: the node's own
annotation value if present; otherwise, for a property, the recursive
lookup on its declaring interface (which, not being a property itself,
yields that interface's own value or `true`); otherwise `true`. -/
def get_emits_changed_signal (node : AnnNode) : String :=
  match lookupAnn node.annotations ecsAnnName with
  | some v => v
  | none =>
    if node.is_property then
      match lookupAnn node.iface_annotations ecsAnnName with
      | some v => v
      | none => "true"
    else
      "true"

/-- The `org.freedesktop.DBus.Deprecated` block of
`_compare_annotations`. -/
def deprecated_diff (o n : AnnNode) (out : List Msg) : List Msg :=
  let old_deprecated := get_bool_ann o "org.freedesktop.DBus.Deprecated" false
  let new_deprecated := get_bool_ann n "org.freedesktop.DBus.Deprecated" false
  if old_deprecated && !new_deprecated then
    issue_output out OUTPUT_INFO
      ("Node ‘" ++ o.format_name ++ "’ has been un-deprecated.")
  else if !old_deprecated && new_deprecated then
    issue_output out OUTPUT_INFO
      ("Node ‘" ++ o.format_name ++ "’ has been deprecated.")
  else
    out

/-- The `org.freedesktop.DBus.GLib.CSymbol` block of
`_compare_annotations`. -/
def csymbol_diff (o n : AnnNode) (out : List Msg) : List Msg :=
  let old_c_symbol := get_string_ann o "org.freedesktop.DBus.GLib.CSymbol" ""
  let new_c_symbol := get_string_ann n "org.freedesktop.DBus.GLib.CSymbol" ""
  if old_c_symbol ≠ new_c_symbol then
    issue_output out OUTPUT_INFO
      ("Node ‘" ++ o.format_name ++ "’ has changed its C symbol from ‘" ++
       old_c_symbol ++ "’ to ‘" ++ new_c_symbol ++ "’.")
  else
    out

/-- The `org.freedesktop.DBus.Method.NoReply` block of
`_compare_annotations`. -/
def no_reply_diff (o n : AnnNode) (out : List Msg) : List Msg :=
  let old_no_reply := get_bool_ann o "org.freedesktop.DBus.Method.NoReply" false
  let new_no_reply := get_bool_ann n "org.freedesktop.DBus.Method.NoReply" false
  if old_no_reply && !new_no_reply then
    issue_output out OUTPUT_BACKWARDS_INCOMPATIBLE
      ("Node ‘" ++ o.format_name ++ "’ has been marked as returning a reply.")
  else if !old_no_reply && new_no_reply then
    issue_output out OUTPUT_BACKWARDS_INCOMPATIBLE
      ("Node ‘" ++ o.format_name ++ "’ has been marked as not returning a reply.")
  else
    out

/-- The `org.freedesktop.DBus.Property.EmitsChangedSignal` block of
`_compare_annotations`: the six-way `if`/`elif` chain over the two
effective values. -/
def ecs_diff (o n : AnnNode) (out : List Msg) : List Msg :=
  let old_ecs := get_emits_changed_signal o
  let new_ecs := get_emits_changed_signal n
  if (old_ecs == "true" || old_ecs == "invalidates") &&
     (new_ecs == "false" || new_ecs == "const") then
    issue_output out OUTPUT_FORWARDS_INCOMPATIBLE
      ("Node ‘" ++ o.format_name ++
       "’ stopped emitting org.freedesktop.DBus.PropertiesChanged.")
  else if (old_ecs == "false" || old_ecs == "const") &&
          (new_ecs == "true" || new_ecs == "invalidates") then
    issue_output out OUTPUT_BACKWARDS_INCOMPATIBLE
      ("Node ‘" ++ o.format_name ++
       "’ started emitting org.freedesktop.DBus.PropertiesChanged.")
  else if old_ecs == "true" && new_ecs == "invalidates" then
    issue_output out OUTPUT_BACKWARDS_INCOMPATIBLE
      ("Node ‘" ++ o.format_name ++
       "’ stopped emitting its new value in org.freedesktop.DBus.PropertiesChanged.")
  else if old_ecs == "invalidates" && new_ecs == "true" then
    issue_output out OUTPUT_BACKWARDS_INCOMPATIBLE
      ("Node ‘" ++ o.format_name ++
       "’ started emitting its new value in org.freedesktop.DBus.PropertiesChanged.")
  else if old_ecs == "const" && new_ecs == "false" then
    issue_output out OUTPUT_BACKWARDS_INCOMPATIBLE
      ("Node ‘" ++ o.format_name ++ "’ stopped being a constant.")
  else if old_ecs == "false" && new_ecs == "const" then
    issue_output out OUTPUT_FORWARDS_INCOMPATIBLE
      ("Node ‘" ++ o.format_name ++ "’ became a constant.")
  else
    out

/-- Embedding of `InterfaceComparator._compare_annotations`: the four
annotation blocks run in source order, each appending to the output. -/
def compare_annotations (o n : AnnNode) (out : List Msg) : List Msg :=
  ecs_diff o n (no_reply_diff o n (csymbol_diff o n (deprecated_diff o n out)))

/-- Embedding of `InterfaceComparator._compare_arguments`; `parent_fn` is
`old_arg.parent.format_name()`. -/
def compare_arguments (parent_fn : String) (old_arg new_arg : ASTArgument)
    (out : List Msg) : List Msg :=
  let out :=
    if old_arg.name ≠ new_arg.name then
      issue_output out OUTPUT_INFO
        ("Argument " ++ toString old_arg.index ++ " of ‘" ++ parent_fn ++
         "’ has changed name from ‘" ++ old_arg.name ++ "’ to ‘" ++
         new_arg.name ++ "’.")
    else out
  let out :=
    if old_arg.type ≠ new_arg.type then
      issue_output out OUTPUT_BACKWARDS_INCOMPATIBLE
        ("Argument " ++ toString old_arg.index ++ " of ‘" ++ parent_fn ++
         "’ has changed type from ‘" ++ old_arg.type ++ "’ to ‘" ++
         new_arg.type ++ "’.")
    else out
  let out :=
    if old_arg.direction ≠ new_arg.direction then
      issue_output out OUTPUT_BACKWARDS_INCOMPATIBLE
        ("Argument " ++ toString old_arg.index ++ " of ‘" ++ parent_fn ++
         "’ has changed direction from ‘" ++ old_arg.direction ++ "’ to ‘" ++
         new_arg.direction ++ "’.")
    else out
  compare_annotations (argNode old_arg) (argNode new_arg) out

/-- Out-of-range placeholder argument for `List.getD`; every in-range
access of the positional comparison loop hits a real element, so this
value is never read. -/
def dflt_arg : ASTArgument :=
  ⟨"", "", "", 0, []⟩

/-- One iteration of the positional argument-comparison loop shared by
`_compare_methods` and `_compare_signals`: `kind` is the literal `method`
or `signal`, `old_fn`/`new_fn` are the two members' `format_name()`
strings. -/
def arg_index_step (kind old_fn new_fn : String)
    (old_args new_args : List ASTArgument) (out : List Msg) (i : Nat) : List Msg :=
  if old_args.length ≤ i then
    issue_output out OUTPUT_BACKWARDS_INCOMPATIBLE
      ("Argument " ++ argFormatName (new_args.getD i dflt_arg) ++ " of " ++
       kind ++ " ‘" ++ new_fn ++ "’ has been added.")
  else if new_args.length ≤ i then
    issue_output out OUTPUT_BACKWARDS_INCOMPATIBLE
      ("Argument " ++ argFormatName (old_args.getD i dflt_arg) ++ " of " ++
       kind ++ " ‘" ++ old_fn ++ "’ has been removed.")
  else
    compare_arguments old_fn (old_args.getD i dflt_arg) (new_args.getD i dflt_arg) out

/-- Embedding of `InterfaceComparator._compare_methods`. -/
def compare_methods (old_iface_name new_iface_name : String)
    (old_method new_method : ASTMethod) (out : List Msg) : List Msg :=
  let old_fn := memberFormatName old_iface_name old_method.name
  let new_fn := memberFormatName new_iface_name new_method.name
  let out :=
    (List.range (max old_method.arguments.length new_method.arguments.length)).foldl
      (arg_index_step "method" old_fn new_fn old_method.arguments new_method.arguments)
      out
  compare_annotations (methodNode old_iface_name old_method)
    (methodNode new_iface_name new_method) out

/-- Embedding of `InterfaceComparator._compare_signals` (textually the
same loop as for methods, with `signal` in the messages). -/
def compare_signals (old_iface_name new_iface_name : String)
    (old_signal new_signal : ASTSignal) (out : List Msg) : List Msg :=
  let old_fn := memberFormatName old_iface_name old_signal.name
  let new_fn := memberFormatName new_iface_name new_signal.name
  let out :=
    (List.range (max old_signal.arguments.length new_signal.arguments.length)).foldl
      (arg_index_step "signal" old_fn new_fn old_signal.arguments new_signal.arguments)
      out
  compare_annotations (methodNode old_iface_name old_signal)
    (methodNode new_iface_name new_signal) out

/-- The declared-type block of `_compare_properties`. -/
def property_type_diff (old_iface_name : String)
    (old_property new_property : ASTProperty) (out : List Msg) : List Msg :=
  if old_property.type ≠ new_property.type then
    issue_output out OUTPUT_BACKWARDS_INCOMPATIBLE
      ("Property ‘" ++ memberFormatName old_iface_name old_property.name ++
       "’ has changed type from ‘" ++ old_property.type ++ "’ to ‘" ++
       new_property.type ++ "’.")
  else out

/-- The access-mode block of `_compare_properties`. -/
def property_access_diff (old_iface_name : String)
    (old_property new_property : ASTProperty) (out : List Msg) : List Msg :=
  if (old_property.access == ASTProperty.ACCESS_READ ||
      old_property.access == ASTProperty.ACCESS_WRITE) &&
     new_property.access == ASTProperty.ACCESS_READWRITE then
    issue_output out OUTPUT_FORWARDS_INCOMPATIBLE
      ("Property ‘" ++ memberFormatName old_iface_name old_property.name ++
       "’ has changed access from ‘" ++ old_property.access ++ "’ to ‘" ++
       new_property.access ++ "’, becoming less restrictive.")
  else if old_property.access ≠ new_property.access then
    issue_output out OUTPUT_BACKWARDS_INCOMPATIBLE
      ("Property ‘" ++ memberFormatName old_iface_name old_property.name ++
       "’ has changed access from ‘" ++ old_property.access ++ "’ to ‘" ++
       new_property.access ++ "’.")
  else out

/-- Embedding of `InterfaceComparator._compare_properties`: type check,
access check, then the annotation comparison (with each property's own
declaring interface as the Emits-changed-signal fallback). -/
def compare_properties (old_iface new_iface : ASTInterface)
    (old_property new_property : ASTProperty) (out : List Msg) : List Msg :=
  let out := property_type_diff old_iface.name old_property new_property out
  let out := property_access_diff old_iface.name old_property new_property out
  compare_annotations (propNode old_iface old_property)
    (propNode new_iface new_property) out

/-- Embedding of `InterfaceComparator._compare_interfaces`: the six
member loops (methods removed/modified, methods added, properties
removed/modified, properties added, signals removed/modified, signals
added) followed by the interface-level annotation comparison. -/
def compare_interfaces (old_iface new_iface : ASTInterface)
    (out : List Msg) : List Msg :=
  let out := old_iface.methods.foldl
    (fun out p =>
      match lookupAssoc new_iface.methods p.1 with
      | none =>
        issue_output out OUTPUT_BACKWARDS_INCOMPATIBLE
          ("Method ‘" ++ memberFormatName old_iface.name p.2.name ++
           "’ has been removed.")
      | some m2 => compare_methods old_iface.name new_iface.name p.2 m2 out)
    out
  let out := new_iface.methods.foldl
    (fun out p =>
      if (lookupAssoc old_iface.methods p.1).isNone then
        issue_output out OUTPUT_FORWARDS_INCOMPATIBLE
          ("Method ‘" ++ memberFormatName new_iface.name p.2.name ++
           "’ has been added.")
      else out)
    out
  let out := old_iface.properties.foldl
    (fun out p =>
      match lookupAssoc new_iface.properties p.1 with
      | none =>
        issue_output out OUTPUT_BACKWARDS_INCOMPATIBLE
          ("Property ‘" ++ memberFormatName old_iface.name p.2.name ++
           "’ has been removed.")
      | some p2 => compare_properties old_iface new_iface p.2 p2 out)
    out
  let out := new_iface.properties.foldl
    (fun out p =>
      if (lookupAssoc old_iface.properties p.1).isNone then
        issue_output out OUTPUT_FORWARDS_INCOMPATIBLE
          ("Property ‘" ++ memberFormatName new_iface.name p.2.name ++
           "’ has been added.")
      else out)
    out
  let out := old_iface.signals.foldl
    (fun out p =>
      match lookupAssoc new_iface.signals p.1 with
      | none =>
        issue_output out OUTPUT_BACKWARDS_INCOMPATIBLE
          ("Signal ‘" ++ memberFormatName old_iface.name p.2.name ++
           "’ has been removed.")
      | some s2 => compare_signals old_iface.name new_iface.name p.2 s2 out)
    out
  let out := new_iface.signals.foldl
    (fun out p =>
      if (lookupAssoc old_iface.signals p.1).isNone then
        issue_output out OUTPUT_FORWARDS_INCOMPATIBLE
          ("Signal ‘" ++ memberFormatName new_iface.name p.2.name ++
           "’ has been added.")
      else out)
    out
  compare_annotations (ifaceNode old_iface) (ifaceNode new_iface) out

/-- The body of `InterfaceComparator.compare`: the loop over the old
mapping (removed or recursively compared) followed by the loop over the
new mapping (added), appending to `out`. -/
def compare_into (old_interfaces new_interfaces : List (String × ASTInterface))
    (out : List Msg) : List Msg :=
  let out := old_interfaces.foldl
    (fun out p =>
      match lookupAssoc new_interfaces p.1 with
      | none =>
        issue_output out OUTPUT_BACKWARDS_INCOMPATIBLE
          ("Interface ‘" ++ p.1 ++ "’ has been removed.")
      | some i2 => compare_interfaces p.2 i2 out)
    out
  new_interfaces.foldl
    (fun out p =>
      if (lookupAssoc old_interfaces p.1).isNone then
        issue_output out OUTPUT_FORWARDS_INCOMPATIBLE
          ("Interface ‘" ++ p.1 ++ "’ has been added.")
      else out)
    out

/-- The full stored result of one `compare()` call: the output list
starting from the freshly cleared `self._output = []`. -/
def compare_full (old_interfaces new_interfaces : List (String × ASTInterface)) :
    List Msg :=
  compare_into old_interfaces new_interfaces []

/-- Embedding of the `InterfaceComparator` object state: the two mappings
given to `__init__`, the stored `_output` and the enabled warning
categories. -/
structure InterfaceComparator where
  old_interfaces : List (String × ASTInterface)
  new_interfaces : List (String × ASTInterface)
  output : List Msg
  enabled_warnings : List String
deriving DecidableEq, Repr

/-- Embedding of `InterfaceComparator._warning_enabled`. -/
def warning_enabled (c : InterfaceComparator) (level : Nat) : Bool :=
  (level == OUTPUT_INFO && c.enabled_warnings.contains "info") ||
  (level == OUTPUT_FORWARDS_INCOMPATIBLE &&
    c.enabled_warnings.contains "forwards-compatibility") ||
  (level == OUTPUT_BACKWARDS_INCOMPATIBLE &&
    c.enabled_warnings.contains "backwards-compatibility")

/-- Embedding of `InterfaceComparator.get_output`: the read-time filter
over the stored result. -/
def InterfaceComparator.get_output (c : InterfaceComparator) : List Msg :=
  c.output.foldl
    (fun acc e => if warning_enabled c e.1 then acc ++ [e] else acc) []

/-- Embedding of `InterfaceComparator.compare`: clear the stored output,
recompute it from the two mappings, and return the new object state
together with the filtered `get_output()` value the Python method
returns. -/
def InterfaceComparator.compare (c : InterfaceComparator) :
    InterfaceComparator × List Msg :=
  let c1 : InterfaceComparator :=
    { c with output := [] }
  let c2 : InterfaceComparator :=
    { c1 with output := compare_into c1.old_interfaces c1.new_interfaces c1.output }
  (c2, c2.get_output)


/-! Pure emission values: each `compare_*` function only appends to its
output accumulator, so its effect is captured by its run from the empty
accumulator.  The `*P` definitions name those runs; the `*_append` lemmas
prove the accumulator really is only appended to; the `flatMap` lemmas
turn the imperative loops into declarative concatenations. -/

/-- Run of the Deprecated block from an empty accumulator. -/
def deprecated_diffP (o n : AnnNode) : List Msg := deprecated_diff o n []

/-- Run of the C-symbol block from an empty accumulator. -/
def csymbol_diffP (o n : AnnNode) : List Msg := csymbol_diff o n []

/-- Run of the No-reply block from an empty accumulator. -/
def no_reply_diffP (o n : AnnNode) : List Msg := no_reply_diff o n []

/-- Run of the Emits-changed-signal block from an empty accumulator. -/
def ecs_diffP (o n : AnnNode) : List Msg := ecs_diff o n []

/-- Run of `_compare_annotations` from an empty accumulator. -/
def compare_annotationsP (o n : AnnNode) : List Msg := compare_annotations o n []

/-- Run of `_compare_arguments` from an empty accumulator. -/
def compare_argumentsP (fn : String) (a b : ASTArgument) : List Msg :=
  compare_arguments fn a b []

/-- Run of one argument-loop iteration from an empty accumulator. -/
def arg_index_stepP (kind old_fn new_fn : String)
    (old_args new_args : List ASTArgument) (i : Nat) : List Msg :=
  arg_index_step kind old_fn new_fn old_args new_args [] i

/-- Run of `_compare_methods` from an empty accumulator. -/
def compare_methodsP (oi ni : String) (om nm : ASTMethod) : List Msg :=
  compare_methods oi ni om nm []

/-- Run of `_compare_signals` from an empty accumulator. -/
def compare_signalsP (oi ni : String) (os ns : ASTSignal) : List Msg :=
  compare_signals oi ni os ns []

/-- Run of the property type check from an empty accumulator. -/
def property_type_diffP (oi : String) (op np : ASTProperty) : List Msg :=
  property_type_diff oi op np []

/-- Run of the property access check from an empty accumulator. -/
def property_access_diffP (oi : String) (op np : ASTProperty) : List Msg :=
  property_access_diff oi op np []

/-- Run of `_compare_properties` from an empty accumulator. -/
def compare_propertiesP (oi ni : ASTInterface) (op np : ASTProperty) : List Msg :=
  compare_properties oi ni op np []

/-- Run of `_compare_interfaces` from an empty accumulator. -/
def compare_interfacesP (oi ni : ASTInterface) : List Msg :=
  compare_interfaces oi ni []

theorem foldl_out_flatMap {α : Type} (f : List Msg → α → List Msg) (g : α → List Msg)
    (hf : ∀ out x, f out x = out ++ g x) (l : List α) :
    ∀ out : List Msg, l.foldl f out = out ++ l.flatMap g := by
  induction l with
  | nil => intro out; simp
  | cons x xs ih =>
    intro out
    simp only [List.foldl_cons, List.flatMap_cons]
    rw [hf out x, ih (out ++ g x), List.append_assoc]

theorem deprecated_diff_append (o n : AnnNode) (out : List Msg) :
    deprecated_diff o n out = out ++ deprecated_diffP o n := by
  simp only [deprecated_diff, deprecated_diffP, issue_output]
  split_ifs <;> simp

theorem csymbol_diff_append (o n : AnnNode) (out : List Msg) :
    csymbol_diff o n out = out ++ csymbol_diffP o n := by
  simp only [csymbol_diff, csymbol_diffP, issue_output]
  split_ifs <;> simp

theorem no_reply_diff_append (o n : AnnNode) (out : List Msg) :
    no_reply_diff o n out = out ++ no_reply_diffP o n := by
  simp only [no_reply_diff, no_reply_diffP, issue_output]
  split_ifs <;> simp

theorem ecs_diff_append (o n : AnnNode) (out : List Msg) :
    ecs_diff o n out = out ++ ecs_diffP o n := by
  simp only [ecs_diff, ecs_diffP, issue_output]
  split_ifs <;> simp

theorem compare_annotations_append (o n : AnnNode) (out : List Msg) :
    compare_annotations o n out = out ++ compare_annotationsP o n := by
  simp only [compare_annotations, compare_annotationsP, deprecated_diff_append,
    csymbol_diff_append, no_reply_diff_append, ecs_diff_append, List.append_assoc,
    List.nil_append]

/-- The annotation comparison in declarative form: the four blocks'
emissions concatenated in source order. -/
theorem compare_annotationsP_eq (o n : AnnNode) :
    compare_annotationsP o n =
      deprecated_diffP o n ++ csymbol_diffP o n ++ no_reply_diffP o n ++ ecs_diffP o n := by
  simp only [compare_annotationsP, compare_annotations, deprecated_diff_append,
    csymbol_diff_append, no_reply_diff_append, ecs_diff_append, List.append_assoc,
    List.nil_append]

theorem compare_arguments_append (fn : String) (a b : ASTArgument) (out : List Msg) :
    compare_arguments fn a b out = out ++ compare_argumentsP fn a b := by
  simp only [compare_arguments, compare_argumentsP, issue_output]
  split_ifs <;>
    simp only [compare_annotations_append, List.append_assoc, List.nil_append]

theorem arg_index_step_append (kind old_fn new_fn : String)
    (old_args new_args : List ASTArgument) (out : List Msg) (i : Nat) :
    arg_index_step kind old_fn new_fn old_args new_args out i =
      out ++ arg_index_stepP kind old_fn new_fn old_args new_args i := by
  simp only [arg_index_step, arg_index_stepP, issue_output]
  split_ifs <;>
    simp only [compare_arguments_append, List.append_assoc, List.nil_append]

theorem compare_methods_append (oi ni : String) (om nm : ASTMethod) (out : List Msg) :
    compare_methods oi ni om nm out = out ++ compare_methodsP oi ni om nm := by
  simp only [compare_methods, compare_methodsP]
  rw [foldl_out_flatMap _ _ (fun out i => arg_index_step_append _ _ _ _ _ out i),
    foldl_out_flatMap _ _ (fun out i => arg_index_step_append _ _ _ _ _ out i)]
  simp only [compare_annotations_append, List.append_assoc, List.nil_append]

/-- The method comparison in declarative form: the per-index argument
chunks in index order, then the method-level annotation diff. -/
theorem compare_methodsP_eq (oi ni : String) (om nm : ASTMethod) :
    compare_methodsP oi ni om nm =
      (List.range (max om.arguments.length nm.arguments.length)).flatMap
        (arg_index_stepP "method" (memberFormatName oi om.name)
          (memberFormatName ni nm.name) om.arguments nm.arguments) ++
      compare_annotationsP (methodNode oi om) (methodNode ni nm) := by
  simp only [compare_methodsP, compare_methods]
  rw [foldl_out_flatMap _ _ (fun out i => arg_index_step_append _ _ _ _ _ out i)]
  simp only [compare_annotations_append, List.append_assoc, List.nil_append]

theorem compare_signals_append (oi ni : String) (os ns : ASTSignal) (out : List Msg) :
    compare_signals oi ni os ns out = out ++ compare_signalsP oi ni os ns := by
  simp only [compare_signals, compare_signalsP]
  rw [foldl_out_flatMap _ _ (fun out i => arg_index_step_append _ _ _ _ _ out i),
    foldl_out_flatMap _ _ (fun out i => arg_index_step_append _ _ _ _ _ out i)]
  simp only [compare_annotations_append, List.append_assoc, List.nil_append]

/-- The signal comparison in declarative form. -/
theorem compare_signalsP_eq (oi ni : String) (os ns : ASTSignal) :
    compare_signalsP oi ni os ns =
      (List.range (max os.arguments.length ns.arguments.length)).flatMap
        (arg_index_stepP "signal" (memberFormatName oi os.name)
          (memberFormatName ni ns.name) os.arguments ns.arguments) ++
      compare_annotationsP (methodNode oi os) (methodNode ni ns) := by
  simp only [compare_signalsP, compare_signals]
  rw [foldl_out_flatMap _ _ (fun out i => arg_index_step_append _ _ _ _ _ out i)]
  simp only [compare_annotations_append, List.append_assoc, List.nil_append]

theorem property_type_diff_append (oi : String) (op np : ASTProperty) (out : List Msg) :
    property_type_diff oi op np out = out ++ property_type_diffP oi op np := by
  simp only [property_type_diff, property_type_diffP, issue_output]
  split_ifs <;> simp

theorem property_access_diff_append (oi : String) (op np : ASTProperty) (out : List Msg) :
    property_access_diff oi op np out = out ++ property_access_diffP oi op np := by
  simp only [property_access_diff, property_access_diffP, issue_output]
  split_ifs <;> simp

theorem compare_properties_append (oi ni : ASTInterface) (op np : ASTProperty)
    (out : List Msg) :
    compare_properties oi ni op np out = out ++ compare_propertiesP oi ni op np := by
  simp only [compare_properties, compare_propertiesP, property_type_diff_append,
    property_access_diff_append, compare_annotations_append, List.append_assoc,
    List.nil_append]

/-- The property comparison in declarative form: type check, access
check, then the annotation diff with the interface fallback. -/
theorem compare_propertiesP_eq (oi ni : ASTInterface) (op np : ASTProperty) :
    compare_propertiesP oi ni op np =
      property_type_diffP oi.name op np ++ property_access_diffP oi.name op np ++
      compare_annotationsP (propNode oi op) (propNode ni np) := by
  simp only [compare_propertiesP, compare_properties, property_type_diff_append,
    property_access_diff_append, compare_annotations_append, List.append_assoc,
    List.nil_append]

/-- Emission of the methods removed-or-modified loop for one old-mapping
entry. -/
def method_chunk_old (old_iface new_iface : ASTInterface)
    (p : String × ASTMethod) : List Msg :=
  match lookupAssoc new_iface.methods p.1 with
  | none =>
    [(OUTPUT_BACKWARDS_INCOMPATIBLE,
      "Method ‘" ++ memberFormatName old_iface.name p.2.name ++ "’ has been removed.")]
  | some m2 => compare_methodsP old_iface.name new_iface.name p.2 m2

/-- Emission of the methods added loop for one new-mapping entry. -/
def method_chunk_new (old_iface new_iface : ASTInterface)
    (p : String × ASTMethod) : List Msg :=
  if (lookupAssoc old_iface.methods p.1).isNone then
    [(OUTPUT_FORWARDS_INCOMPATIBLE,
      "Method ‘" ++ memberFormatName new_iface.name p.2.name ++ "’ has been added.")]
  else []

/-- Emission of the properties removed-or-modified loop for one
old-mapping entry. -/
def property_chunk_old (old_iface new_iface : ASTInterface)
    (p : String × ASTProperty) : List Msg :=
  match lookupAssoc new_iface.properties p.1 with
  | none =>
    [(OUTPUT_BACKWARDS_INCOMPATIBLE,
      "Property ‘" ++ memberFormatName old_iface.name p.2.name ++ "’ has been removed.")]
  | some p2 => compare_propertiesP old_iface new_iface p.2 p2

/-- Emission of the properties added loop for one new-mapping entry. -/
def property_chunk_new (old_iface new_iface : ASTInterface)
    (p : String × ASTProperty) : List Msg :=
  if (lookupAssoc old_iface.properties p.1).isNone then
    [(OUTPUT_FORWARDS_INCOMPATIBLE,
      "Property ‘" ++ memberFormatName new_iface.name p.2.name ++ "’ has been added.")]
  else []

/-- Emission of the signals removed-or-modified loop for one old-mapping
entry. -/
def signal_chunk_old (old_iface new_iface : ASTInterface)
    (p : String × ASTSignal) : List Msg :=
  match lookupAssoc new_iface.signals p.1 with
  | none =>
    [(OUTPUT_BACKWARDS_INCOMPATIBLE,
      "Signal ‘" ++ memberFormatName old_iface.name p.2.name ++ "’ has been removed.")]
  | some s2 => compare_signalsP old_iface.name new_iface.name p.2 s2

/-- Emission of the signals added loop for one new-mapping entry. -/
def signal_chunk_new (old_iface new_iface : ASTInterface)
    (p : String × ASTSignal) : List Msg :=
  if (lookupAssoc old_iface.signals p.1).isNone then
    [(OUTPUT_FORWARDS_INCOMPATIBLE,
      "Signal ‘" ++ memberFormatName new_iface.name p.2.name ++ "’ has been added.")]
  else []

theorem method_old_step (oi ni : ASTInterface) (out : List Msg) (p : String × ASTMethod) :
    (match lookupAssoc ni.methods p.1 with
      | none =>
        issue_output out OUTPUT_BACKWARDS_INCOMPATIBLE
          ("Method ‘" ++ memberFormatName oi.name p.2.name ++ "’ has been removed.")
      | some m2 => compare_methods oi.name ni.name p.2 m2 out) =
      out ++ method_chunk_old oi ni p := by
  simp only [method_chunk_old]
  cases lookupAssoc ni.methods p.1 <;> simp [issue_output, compare_methods_append]

theorem method_new_step (oi ni : ASTInterface) (out : List Msg) (p : String × ASTMethod) :
    (if (lookupAssoc oi.methods p.1).isNone then
        issue_output out OUTPUT_FORWARDS_INCOMPATIBLE
          ("Method ‘" ++ memberFormatName ni.name p.2.name ++ "’ has been added.")
      else out) =
      out ++ method_chunk_new oi ni p := by
  simp only [method_chunk_new]
  split_ifs <;> simp [issue_output]

theorem property_old_step (oi ni : ASTInterface) (out : List Msg) (p : String × ASTProperty) :
    (match lookupAssoc ni.properties p.1 with
      | none =>
        issue_output out OUTPUT_BACKWARDS_INCOMPATIBLE
          ("Property ‘" ++ memberFormatName oi.name p.2.name ++ "’ has been removed.")
      | some p2 => compare_properties oi ni p.2 p2 out) =
      out ++ property_chunk_old oi ni p := by
  simp only [property_chunk_old]
  cases lookupAssoc ni.properties p.1 <;> simp [issue_output, compare_properties_append]

theorem property_new_step (oi ni : ASTInterface) (out : List Msg) (p : String × ASTProperty) :
    (if (lookupAssoc oi.properties p.1).isNone then
        issue_output out OUTPUT_FORWARDS_INCOMPATIBLE
          ("Property ‘" ++ memberFormatName ni.name p.2.name ++ "’ has been added.")
      else out) =
      out ++ property_chunk_new oi ni p := by
  simp only [property_chunk_new]
  split_ifs <;> simp [issue_output]

theorem signal_old_step (oi ni : ASTInterface) (out : List Msg) (p : String × ASTSignal) :
    (match lookupAssoc ni.signals p.1 with
      | none =>
        issue_output out OUTPUT_BACKWARDS_INCOMPATIBLE
          ("Signal ‘" ++ memberFormatName oi.name p.2.name ++ "’ has been removed.")
      | some s2 => compare_signals oi.name ni.name p.2 s2 out) =
      out ++ signal_chunk_old oi ni p := by
  simp only [signal_chunk_old]
  cases lookupAssoc ni.signals p.1 <;> simp [issue_output, compare_signals_append]

theorem signal_new_step (oi ni : ASTInterface) (out : List Msg) (p : String × ASTSignal) :
    (if (lookupAssoc oi.signals p.1).isNone then
        issue_output out OUTPUT_FORWARDS_INCOMPATIBLE
          ("Signal ‘" ++ memberFormatName ni.name p.2.name ++ "’ has been added.")
      else out) =
      out ++ signal_chunk_new oi ni p := by
  simp only [signal_chunk_new]
  split_ifs <;> simp [issue_output]

/-- The per-interface comparison in declarative form: methods (removed or
modified, then added), properties, signals, then the interface-level
annotation diff — the within-interface ordering of §4.3. -/
theorem compare_interfacesP_eq (oi ni : ASTInterface) :
    compare_interfacesP oi ni =
      oi.methods.flatMap (method_chunk_old oi ni) ++
      ni.methods.flatMap (method_chunk_new oi ni) ++
      oi.properties.flatMap (property_chunk_old oi ni) ++
      ni.properties.flatMap (property_chunk_new oi ni) ++
      oi.signals.flatMap (signal_chunk_old oi ni) ++
      ni.signals.flatMap (signal_chunk_new oi ni) ++
      compare_annotationsP (ifaceNode oi) (ifaceNode ni) := by
  simp only [compare_interfacesP, compare_interfaces]
  rw [compare_annotations_append,
    foldl_out_flatMap _ (signal_chunk_new oi ni) (signal_new_step oi ni),
    foldl_out_flatMap _ (signal_chunk_old oi ni) (signal_old_step oi ni),
    foldl_out_flatMap _ (property_chunk_new oi ni) (property_new_step oi ni),
    foldl_out_flatMap _ (property_chunk_old oi ni) (property_old_step oi ni),
    foldl_out_flatMap _ (method_chunk_new oi ni) (method_new_step oi ni),
    foldl_out_flatMap _ (method_chunk_old oi ni) (method_old_step oi ni)]
  simp [List.append_assoc]

theorem compare_interfaces_append (oi ni : ASTInterface) (out : List Msg) :
    compare_interfaces oi ni out = out ++ compare_interfacesP oi ni := by
  rw [compare_interfacesP_eq]
  simp only [compare_interfaces]
  rw [compare_annotations_append,
    foldl_out_flatMap _ (signal_chunk_new oi ni) (signal_new_step oi ni),
    foldl_out_flatMap _ (signal_chunk_old oi ni) (signal_old_step oi ni),
    foldl_out_flatMap _ (property_chunk_new oi ni) (property_new_step oi ni),
    foldl_out_flatMap _ (property_chunk_old oi ni) (property_old_step oi ni),
    foldl_out_flatMap _ (method_chunk_new oi ni) (method_new_step oi ni),
    foldl_out_flatMap _ (method_chunk_old oi ni) (method_old_step oi ni)]
  simp [List.append_assoc]

/-- Emission of the top-level removed-or-modified loop for one
old-mapping entry. -/
def iface_chunk_old (new_interfaces : List (String × ASTInterface))
    (p : String × ASTInterface) : List Msg :=
  match lookupAssoc new_interfaces p.1 with
  | none =>
    [(OUTPUT_BACKWARDS_INCOMPATIBLE, "Interface ‘" ++ p.1 ++ "’ has been removed.")]
  | some i2 => compare_interfacesP p.2 i2

/-- Emission of the top-level added loop for one new-mapping entry. -/
def iface_chunk_new (old_interfaces : List (String × ASTInterface))
    (p : String × ASTInterface) : List Msg :=
  if (lookupAssoc old_interfaces p.1).isNone then
    [(OUTPUT_FORWARDS_INCOMPATIBLE, "Interface ‘" ++ p.1 ++ "’ has been added.")]
  else []

theorem iface_old_step (new_interfaces : List (String × ASTInterface))
    (out : List Msg) (p : String × ASTInterface) :
    (match lookupAssoc new_interfaces p.1 with
      | none =>
        issue_output out OUTPUT_BACKWARDS_INCOMPATIBLE
          ("Interface ‘" ++ p.1 ++ "’ has been removed.")
      | some i2 => compare_interfaces p.2 i2 out) =
      out ++ iface_chunk_old new_interfaces p := by
  simp only [iface_chunk_old]
  cases lookupAssoc new_interfaces p.1 <;> simp [issue_output, compare_interfaces_append]

theorem iface_new_step (old_interfaces : List (String × ASTInterface))
    (out : List Msg) (p : String × ASTInterface) :
    (if (lookupAssoc old_interfaces p.1).isNone then
        issue_output out OUTPUT_FORWARDS_INCOMPATIBLE
          ("Interface ‘" ++ p.1 ++ "’ has been added.")
      else out) =
      out ++ iface_chunk_new old_interfaces p := by
  simp only [iface_chunk_new]
  split_ifs <;> simp [issue_output]

/-- The full stored result in declarative form: all old-mapping chunks in
the old mapping's iteration order, then all new-mapping addition chunks in
the new mapping's iteration order. -/
theorem compare_full_eq (old_interfaces new_interfaces : List (String × ASTInterface)) :
    compare_full old_interfaces new_interfaces =
      old_interfaces.flatMap (iface_chunk_old new_interfaces) ++
      new_interfaces.flatMap (iface_chunk_new old_interfaces) := by
  simp only [compare_full, compare_into]
  rw [foldl_out_flatMap _ (iface_chunk_new old_interfaces) (iface_new_step old_interfaces),
    foldl_out_flatMap _ (iface_chunk_old new_interfaces) (iface_old_step new_interfaces)]
  simp

theorem compare_into_append (old_interfaces new_interfaces : List (String × ASTInterface))
    (out : List Msg) :
    compare_into old_interfaces new_interfaces out =
      out ++ compare_full old_interfaces new_interfaces := by
  rw [compare_full_eq]
  simp only [compare_into]
  rw [foldl_out_flatMap _ (iface_chunk_new old_interfaces) (iface_new_step old_interfaces),
    foldl_out_flatMap _ (iface_chunk_old new_interfaces) (iface_old_step new_interfaces)]
  simp [List.append_assoc]

/-! Claim C1: effective Emits-changed-signal value and its transition
table. -/

/-- Effective Emits-changed-signal value as the spec words it: the node's
own annotation value if present, otherwise the fallback's value (for a
property, its declaring interface's own annotation value), otherwise the
literal `true`. -/
def spec_effective_ecs (own fallback : Option String) : String :=
  match own with
  | some v => v
  | none =>
    match fallback with
    | some v => v
    | none => "true"

/-- Helper: the Emits-changed-signal block emits nothing when the two
effective values coincide (every row of the `if`/`elif` chain requires two
distinct values). -/
theorem ecs_diff_eff_eq (o n : AnnNode)
    (h : get_emits_changed_signal o = get_emits_changed_signal n) :
    ecs_diff o n [] = [] := by
  simp only [ecs_diff, ← h]
  split_ifs with h1 h2 h3 h4 h5 h6 <;> try rfl
  · simp only [Bool.and_eq_true, Bool.or_eq_true, beq_iff_eq] at h1
    rcases h1 with ⟨ha | ha, hb | hb⟩ <;> rw [ha] at hb <;> exact absurd hb (by decide)
  · simp only [Bool.and_eq_true, Bool.or_eq_true, beq_iff_eq] at h2
    rcases h2 with ⟨ha | ha, hb | hb⟩ <;> rw [ha] at hb <;> exact absurd hb (by decide)
  · simp only [Bool.and_eq_true, beq_iff_eq] at h3
    rw [h3.1] at h3; exact absurd h3.2 (by decide)
  · simp only [Bool.and_eq_true, beq_iff_eq] at h4
    rw [h4.1] at h4; exact absurd h4.2 (by decide)
  · simp only [Bool.and_eq_true, beq_iff_eq] at h5
    rw [h5.1] at h5; exact absurd h5.2 (by decide)
  · simp only [Bool.and_eq_true, beq_iff_eq] at h6
    rw [h6.1] at h6; exact absurd h6.2 (by decide)

/-- C1: for every pair of compared nodes the effective Emits-changed-signal
value is the node's own annotation value if present, otherwise for a
property the declaring interface's own annotation value (recursively,
which for the interface itself means its own value or `true`), otherwise
`true`; and the Emits-changed-signal block emits ForwardsIncompatible for
an effective transition {true,invalidates}→{false,const},
BackwardsIncompatible for {false,const}→{true,invalidates},
BackwardsIncompatible for true→invalidates, invalidates→true and
const→false, and ForwardsIncompatible for false→const. -/
theorem c1_emits_changed_signal :
    (∀ (i : ASTInterface) (p : ASTProperty),
      get_emits_changed_signal (propNode i p) =
        spec_effective_ecs (lookupAnn p.annotations ecsAnnName)
          (lookupAnn i.annotations ecsAnnName)) ∧
    (∀ nd : AnnNode, nd.is_property = false →
      get_emits_changed_signal nd =
        spec_effective_ecs (lookupAnn nd.annotations ecsAnnName) none) ∧
    (∀ o n : AnnNode,
      ((get_emits_changed_signal o = "true" ∨ get_emits_changed_signal o = "invalidates") →
        (get_emits_changed_signal n = "false" ∨ get_emits_changed_signal n = "const") →
        ecs_diffP o n = [(OUTPUT_FORWARDS_INCOMPATIBLE,
          "Node ‘" ++ o.format_name ++
          "’ stopped emitting org.freedesktop.DBus.PropertiesChanged.")]) ∧
      ((get_emits_changed_signal o = "false" ∨ get_emits_changed_signal o = "const") →
        (get_emits_changed_signal n = "true" ∨ get_emits_changed_signal n = "invalidates") →
        ecs_diffP o n = [(OUTPUT_BACKWARDS_INCOMPATIBLE,
          "Node ‘" ++ o.format_name ++
          "’ started emitting org.freedesktop.DBus.PropertiesChanged.")]) ∧
      (get_emits_changed_signal o = "true" → get_emits_changed_signal n = "invalidates" →
        ecs_diffP o n = [(OUTPUT_BACKWARDS_INCOMPATIBLE,
          "Node ‘" ++ o.format_name ++
          "’ stopped emitting its new value in org.freedesktop.DBus.PropertiesChanged.")]) ∧
      (get_emits_changed_signal o = "invalidates" → get_emits_changed_signal n = "true" →
        ecs_diffP o n = [(OUTPUT_BACKWARDS_INCOMPATIBLE,
          "Node ‘" ++ o.format_name ++
          "’ started emitting its new value in org.freedesktop.DBus.PropertiesChanged.")]) ∧
      (get_emits_changed_signal o = "const" → get_emits_changed_signal n = "false" →
        ecs_diffP o n = [(OUTPUT_BACKWARDS_INCOMPATIBLE,
          "Node ‘" ++ o.format_name ++ "’ stopped being a constant.")]) ∧
      (get_emits_changed_signal o = "false" → get_emits_changed_signal n = "const" →
        ecs_diffP o n = [(OUTPUT_FORWARDS_INCOMPATIBLE,
          "Node ‘" ++ o.format_name ++ "’ became a constant.")])) := by
  refine ⟨?_, ?_, ?_⟩
  · intro i p
    simp only [get_emits_changed_signal, propNode, spec_effective_ecs]
    cases lookupAnn p.annotations ecsAnnName <;>
      cases lookupAnn i.annotations ecsAnnName <;> simp
  · intro nd h
    simp only [get_emits_changed_signal, spec_effective_ecs, h]
    cases lookupAnn nd.annotations ecsAnnName <;> simp
  · intro o n
    refine ⟨?_, ?_, ?_, ?_, ?_, ?_⟩ <;> intro h1 h2
    · rcases h1 with h1 | h1 <;> rcases h2 with h2 | h2 <;>
        simp [ecs_diffP, ecs_diff, issue_output, h1, h2]
    · rcases h1 with h1 | h1 <;> rcases h2 with h2 | h2 <;>
        simp [ecs_diffP, ecs_diff, issue_output, h1, h2]
    · simp [ecs_diffP, ecs_diff, issue_output, h1, h2]
    · simp [ecs_diffP, ecs_diff, issue_output, h1, h2]
    · simp [ecs_diffP, ecs_diff, issue_output, h1, h2]
    · simp [ecs_diffP, ecs_diff, issue_output, h1, h2]

/-- Interface used by the C1 witness: it carries the Emits-changed-signal
annotation `invalidates` which its annotation-free property inherits. -/
def c1_w_iface : ASTInterface :=
  ⟨"I", [], [], [], [(ecsAnnName, "invalidates")]⟩

/-- Annotation-free property used by the C1 witness. -/
def c1_w_prop : ASTProperty :=
  ⟨"P", "s", "read", []⟩

/-- New-side node used by the C1 witness, with own value `const`. -/
def c1_w_new : AnnNode :=
  ⟨"I.P", [(ecsAnnName, "const")], true, []⟩

theorem c1_emits_changed_signal_witness :
    get_emits_changed_signal (propNode c1_w_iface c1_w_prop) = "invalidates" ∧
    ecs_diffP (propNode c1_w_iface c1_w_prop) c1_w_new =
      [(OUTPUT_FORWARDS_INCOMPATIBLE,
        "Node ‘" ++ (propNode c1_w_iface c1_w_prop).format_name ++
        "’ stopped emitting org.freedesktop.DBus.PropertiesChanged.")] := by
  constructor
  · rw [c1_emits_changed_signal.1 c1_w_iface c1_w_prop]
    decide
  · exact (c1_emits_changed_signal.2.2 (propNode c1_w_iface c1_w_prop) c1_w_new).1
      (by decide) (by decide)

/-! Claim C2: which Emits-changed-signal transitions emit nothing.  The
spec's example `true→const` is in fact covered by the
{true,invalidates}→{false,const} row of the code's first branch, so it
does emit a diagnostic; the only transitions between the four enum values
that emit nothing are those with equal old and new effective values. -/

/-- Old-side node of the C2 counterexample, with effective value `true`. -/
def c2_old_node : AnnNode :=
  ⟨"I.P", [(ecsAnnName, "true")], false, []⟩

/-- New-side node of the C2 counterexample, with effective value `const`. -/
def c2_new_node : AnnNode :=
  ⟨"I.P", [(ecsAnnName, "const")], false, []⟩

theorem c2_counterexample :
    get_emits_changed_signal c2_old_node = "true" ∧
    get_emits_changed_signal c2_new_node = "const" ∧
    compare_annotationsP c2_old_node c2_new_node ≠ [] := by
  refine ⟨rfl, rfl, ?_⟩
  decide

/-- C2 amended: an Emits-changed-signal transition whose old and new
effective values are equal emits no diagnostic, and the transition
true→const — the spec's example of an allegedly unlisted transition — is
covered by the {true,invalidates}→{false,const} row and emits exactly one
ForwardsIncompatible message. -/
theorem c2_unlisted_transition (o n : AnnNode) :
    (get_emits_changed_signal o = get_emits_changed_signal n → ecs_diffP o n = []) ∧
    (get_emits_changed_signal o = "true" → get_emits_changed_signal n = "const" →
      ecs_diffP o n = [(OUTPUT_FORWARDS_INCOMPATIBLE,
        "Node ‘" ++ o.format_name ++
        "’ stopped emitting org.freedesktop.DBus.PropertiesChanged.")]) := by
  constructor
  · intro h
    exact ecs_diff_eff_eq o n h
  · intro h1 h2
    simp [ecs_diffP, ecs_diff, issue_output, h1, h2]

theorem c2_unlisted_transition_witness :
    ecs_diffP c2_old_node c2_old_node = [] ∧
    ecs_diffP c2_old_node c2_new_node =
      [(OUTPUT_FORWARDS_INCOMPATIBLE,
        "Node ‘" ++ c2_old_node.format_name ++
        "’ stopped emitting org.freedesktop.DBus.PropertiesChanged.")] :=
  ⟨(c2_unlisted_transition c2_old_node c2_old_node).1 rfl,
   (c2_unlisted_transition c2_old_node c2_new_node).2 (by decide) (by decide)⟩

/-! Claim C3: the property type and access checks. -/

/-- C3: for a property present in both interfaces, the comparison is the
type check, then the access check, then the annotation diff; a type
change emits exactly one BackwardsIncompatible message; an access change
from {read, write} to readwrite emits exactly one ForwardsIncompatible
"less restrictive" message; any other access change emits exactly one
BackwardsIncompatible message; equal type and equal access make the two
checks emit nothing. -/
theorem c3_property_checks (oi ni : ASTInterface) (op np : ASTProperty) :
    (compare_propertiesP oi ni op np =
      property_type_diffP oi.name op np ++ property_access_diffP oi.name op np ++
      compare_annotationsP (propNode oi op) (propNode ni np)) ∧
    (op.type ≠ np.type →
      property_type_diffP oi.name op np =
        [(OUTPUT_BACKWARDS_INCOMPATIBLE,
          "Property ‘" ++ memberFormatName oi.name op.name ++
          "’ has changed type from ‘" ++ op.type ++ "’ to ‘" ++ np.type ++ "’.")]) ∧
    (op.type = np.type → property_type_diffP oi.name op np = []) ∧
    ((op.access = ASTProperty.ACCESS_READ ∨ op.access = ASTProperty.ACCESS_WRITE) →
      np.access = ASTProperty.ACCESS_READWRITE →
      property_access_diffP oi.name op np =
        [(OUTPUT_FORWARDS_INCOMPATIBLE,
          "Property ‘" ++ memberFormatName oi.name op.name ++
          "’ has changed access from ‘" ++ op.access ++ "’ to ‘" ++ np.access ++
          "’, becoming less restrictive.")]) ∧
    (¬((op.access = ASTProperty.ACCESS_READ ∨ op.access = ASTProperty.ACCESS_WRITE) ∧
        np.access = ASTProperty.ACCESS_READWRITE) →
      op.access ≠ np.access →
      property_access_diffP oi.name op np =
        [(OUTPUT_BACKWARDS_INCOMPATIBLE,
          "Property ‘" ++ memberFormatName oi.name op.name ++
          "’ has changed access from ‘" ++ op.access ++ "’ to ‘" ++ np.access ++ "’.")]) ∧
    (op.access = np.access → property_access_diffP oi.name op np = []) := by
  refine ⟨compare_propertiesP_eq oi ni op np, ?_, ?_, ?_, ?_, ?_⟩
  · intro h
    simp [property_type_diffP, property_type_diff, issue_output, h]
  · intro h
    simp [property_type_diffP, property_type_diff, issue_output, h]
  · intro h1 h2
    rcases h1 with h1 | h1 <;>
      simp [property_access_diffP, property_access_diff, issue_output, h1, h2]
  · intro h1 h2
    have hcond : ¬(((op.access == ASTProperty.ACCESS_READ ||
        op.access == ASTProperty.ACCESS_WRITE) &&
        (np.access == ASTProperty.ACCESS_READWRITE)) = true) := by
      simp only [Bool.and_eq_true, Bool.or_eq_true, beq_iff_eq]
      exact fun hc => h1 hc
    simp only [property_access_diffP, property_access_diff, issue_output]
    rw [if_neg hcond, if_pos h2]
    simp
  · intro h
    have hcond : ¬(((op.access == ASTProperty.ACCESS_READ ||
        op.access == ASTProperty.ACCESS_WRITE) &&
        (np.access == ASTProperty.ACCESS_READWRITE)) = true) := by
      simp only [Bool.and_eq_true, Bool.or_eq_true, beq_iff_eq]
      rintro ⟨ha | ha, hb⟩ <;> rw [ha, hb] at h <;> exact absurd h (by decide)
    simp only [property_access_diffP, property_access_diff, issue_output]
    rw [if_neg hcond, if_neg (by simpa using h)]

/-- Old-side property of the C3 witness: the spec scenario's property of
type `s` with access `read`. -/
def c3_w_old : ASTProperty :=
  ⟨"P", "s", "read", []⟩

/-- New-side property of the C3 witness: type `i`, access `readwrite`. -/
def c3_w_new : ASTProperty :=
  ⟨"P", "i", "readwrite", []⟩

/-- Witness interface for C3 (old and new sides are annotation-free). -/
def c3_w_iface : ASTInterface :=
  ⟨"I", [], [("P", c3_w_old)], [], []⟩

theorem c3_property_checks_witness :
    property_type_diffP "I" c3_w_old c3_w_new =
      [(OUTPUT_BACKWARDS_INCOMPATIBLE,
        "Property ‘" ++ memberFormatName "I" "P" ++
        "’ has changed type from ‘s’ to ‘i’.")] ∧
    property_access_diffP "I" c3_w_old c3_w_new =
      [(OUTPUT_FORWARDS_INCOMPATIBLE,
        "Property ‘" ++ memberFormatName "I" "P" ++
        "’ has changed access from ‘read’ to ‘readwrite’, becoming less restrictive.")] ∧
    property_access_diffP "I" c3_w_old c3_w_old = [] :=
  ⟨(c3_property_checks c3_w_iface c3_w_iface c3_w_old c3_w_new).2.1 (by decide),
   (c3_property_checks c3_w_iface c3_w_iface c3_w_old c3_w_new).2.2.2.1
     (Or.inl rfl) rfl,
   (c3_property_checks c3_w_iface c3_w_iface c3_w_old c3_w_old).2.2.2.2.2 rfl⟩

/-! Claim C4: positional comparison of method and signal argument lists. -/

/-- C4: methods and signals present in both interfaces compare their
argument lists positionally over indices 0..max(len_old,len_new)-1; an
index only in the new list emits one BackwardsIncompatible "added"
message, an index only in the old list emits one BackwardsIncompatible
"removed" message, and an index in both compares the two arguments: a
name difference emits Info, a type difference BackwardsIncompatible and a
direction difference BackwardsIncompatible, followed by the arguments'
annotation diff. -/
theorem c4_argument_comparison (kind old_fn new_fn parent_fn : String)
    (old_args new_args : List ASTArgument) (i : Nat) (a b : ASTArgument)
    (oi ni : String) (om nm : ASTMethod) (os ns : ASTSignal) :
    (compare_methodsP oi ni om nm =
      (List.range (max om.arguments.length nm.arguments.length)).flatMap
        (arg_index_stepP "method" (memberFormatName oi om.name)
          (memberFormatName ni nm.name) om.arguments nm.arguments) ++
      compare_annotationsP (methodNode oi om) (methodNode ni nm)) ∧
    (compare_signalsP oi ni os ns =
      (List.range (max os.arguments.length ns.arguments.length)).flatMap
        (arg_index_stepP "signal" (memberFormatName oi os.name)
          (memberFormatName ni ns.name) os.arguments ns.arguments) ++
      compare_annotationsP (methodNode oi os) (methodNode ni ns)) ∧
    (old_args.length ≤ i →
      arg_index_stepP kind old_fn new_fn old_args new_args i =
        [(OUTPUT_BACKWARDS_INCOMPATIBLE,
          "Argument " ++ argFormatName (new_args.getD i dflt_arg) ++ " of " ++
          kind ++ " ‘" ++ new_fn ++ "’ has been added.")]) ∧
    (i < old_args.length → new_args.length ≤ i →
      arg_index_stepP kind old_fn new_fn old_args new_args i =
        [(OUTPUT_BACKWARDS_INCOMPATIBLE,
          "Argument " ++ argFormatName (old_args.getD i dflt_arg) ++ " of " ++
          kind ++ " ‘" ++ old_fn ++ "’ has been removed.")]) ∧
    (i < old_args.length → i < new_args.length →
      arg_index_stepP kind old_fn new_fn old_args new_args i =
        compare_argumentsP old_fn (old_args.getD i dflt_arg) (new_args.getD i dflt_arg)) ∧
    (compare_argumentsP parent_fn a b =
      (if a.name ≠ b.name then
        [(OUTPUT_INFO,
          "Argument " ++ toString a.index ++ " of ‘" ++ parent_fn ++
          "’ has changed name from ‘" ++ a.name ++ "’ to ‘" ++ b.name ++ "’.")]
      else []) ++
      (if a.type ≠ b.type then
        [(OUTPUT_BACKWARDS_INCOMPATIBLE,
          "Argument " ++ toString a.index ++ " of ‘" ++ parent_fn ++
          "’ has changed type from ‘" ++ a.type ++ "’ to ‘" ++ b.type ++ "’.")]
      else []) ++
      (if a.direction ≠ b.direction then
        [(OUTPUT_BACKWARDS_INCOMPATIBLE,
          "Argument " ++ toString a.index ++ " of ‘" ++ parent_fn ++
          "’ has changed direction from ‘" ++ a.direction ++ "’ to ‘" ++
          b.direction ++ "’.")]
      else []) ++
      compare_annotationsP (argNode a) (argNode b)) := by
  refine ⟨compare_methodsP_eq oi ni om nm, compare_signalsP_eq oi ni os ns,
    ?_, ?_, ?_, ?_⟩
  · intro h
    simp [arg_index_stepP, arg_index_step, issue_output, h]
  · intro h1 h2
    simp [arg_index_stepP, arg_index_step, issue_output, Nat.not_le.mpr h1, h2]
  · intro h1 h2
    simp [arg_index_stepP, arg_index_step, compare_argumentsP,
      Nat.not_le.mpr h1, Nat.not_le.mpr h2]
  · simp only [compare_argumentsP, compare_arguments, issue_output]
    split_ifs <;> simp [compare_annotations_append]

/-- Old-side argument list of the C4 witness: one argument. -/
def c4_w_old_args : List ASTArgument :=
  [⟨"x", "s", "in", 0, []⟩]

/-- New-side argument list of the C4 witness: the first argument renamed
and retyped, and a second argument appended. -/
def c4_w_new_args : List ASTArgument :=
  [⟨"y", "i", "in", 0, []⟩, ⟨"z", "u", "in", 1, []⟩]

theorem c4_argument_comparison_witness :
    arg_index_stepP "method" "I.M" "I.M" c4_w_old_args c4_w_new_args 1 =
      [(OUTPUT_BACKWARDS_INCOMPATIBLE,
        "Argument " ++ argFormatName (c4_w_new_args.getD 1 dflt_arg) ++
        " of method ‘I.M’ has been added.")] ∧
    arg_index_stepP "method" "I.M" "I.M" c4_w_old_args c4_w_new_args 0 =
      compare_argumentsP "I.M" (c4_w_old_args.getD 0 dflt_arg)
        (c4_w_new_args.getD 0 dflt_arg) ∧
    arg_index_stepP "signal" "I.S" "I.S" c4_w_new_args c4_w_old_args 1 =
      [(OUTPUT_BACKWARDS_INCOMPATIBLE,
        "Argument " ++ argFormatName (c4_w_new_args.getD 1 dflt_arg) ++
        " of signal ‘I.S’ has been removed.")] :=
  ⟨(c4_argument_comparison "method" "I.M" "I.M" "I.M" c4_w_old_args c4_w_new_args 1
      dflt_arg dflt_arg "I" "I" ⟨"M", [], []⟩ ⟨"M", [], []⟩ ⟨"S", [], []⟩
      ⟨"S", [], []⟩).2.2.1 (by decide),
   (c4_argument_comparison "method" "I.M" "I.M" "I.M" c4_w_old_args c4_w_new_args 0
      dflt_arg dflt_arg "I" "I" ⟨"M", [], []⟩ ⟨"M", [], []⟩ ⟨"S", [], []⟩
      ⟨"S", [], []⟩).2.2.2.2.1 (by decide) (by decide),
   (c4_argument_comparison "signal" "I.S" "I.S" "I.S" c4_w_new_args c4_w_old_args 1
      dflt_arg dflt_arg "I" "I" ⟨"M", [], []⟩ ⟨"M", [], []⟩ ⟨"S", [], []⟩
      ⟨"S", [], []⟩).2.2.2.1 (by decide) (by decide)⟩

/-! Claim C6: top-level comparison — one removal message per old-only
name, one addition message per new-only name, and ordering. -/

/-- C6: the full stored result is the old mapping's chunks (in old
iteration order) followed by the new mapping's addition chunks (in new
iteration order); an old entry whose name is absent from the new mapping
contributes exactly one BackwardsIncompatible removal message, an old
entry whose name is present contributes the recursive interface
comparison, a new entry whose name is absent from the old mapping
contributes exactly one ForwardsIncompatible addition message and
otherwise nothing; and within one compared interface the order is
methods, then properties, then signals, then interface-level
annotations. -/
theorem c6_compare_top_level (old_interfaces new_interfaces : List (String × ASTInterface)) :
    (compare_full old_interfaces new_interfaces =
      old_interfaces.flatMap (iface_chunk_old new_interfaces) ++
      new_interfaces.flatMap (iface_chunk_new old_interfaces)) ∧
    (∀ p : String × ASTInterface, lookupAssoc new_interfaces p.1 = none →
      iface_chunk_old new_interfaces p =
        [(OUTPUT_BACKWARDS_INCOMPATIBLE,
          "Interface ‘" ++ p.1 ++ "’ has been removed.")]) ∧
    (∀ (p : String × ASTInterface) (i2 : ASTInterface),
      lookupAssoc new_interfaces p.1 = some i2 →
      iface_chunk_old new_interfaces p = compare_interfacesP p.2 i2) ∧
    (∀ p : String × ASTInterface, lookupAssoc old_interfaces p.1 = none →
      iface_chunk_new old_interfaces p =
        [(OUTPUT_FORWARDS_INCOMPATIBLE,
          "Interface ‘" ++ p.1 ++ "’ has been added.")]) ∧
    (∀ p : String × ASTInterface, (lookupAssoc old_interfaces p.1).isSome →
      iface_chunk_new old_interfaces p = []) ∧
    (∀ oi ni : ASTInterface,
      compare_interfacesP oi ni =
        oi.methods.flatMap (method_chunk_old oi ni) ++
        ni.methods.flatMap (method_chunk_new oi ni) ++
        oi.properties.flatMap (property_chunk_old oi ni) ++
        ni.properties.flatMap (property_chunk_new oi ni) ++
        oi.signals.flatMap (signal_chunk_old oi ni) ++
        ni.signals.flatMap (signal_chunk_new oi ni) ++
        compare_annotationsP (ifaceNode oi) (ifaceNode ni)) := by
  refine ⟨compare_full_eq old_interfaces new_interfaces, ?_, ?_, ?_, ?_,
    compare_interfacesP_eq⟩
  · intro p h
    simp [iface_chunk_old, h]
  · intro p i2 h
    simp [iface_chunk_old, h]
  · intro p h
    simp [iface_chunk_new, h]
  · intro p h
    simp only [iface_chunk_new]
    rw [if_neg]
    simp only [Option.isNone_iff_eq_none]
    intro hn
    rw [hn] at h
    exact absurd h (by decide)

/-- Interface used by the C6 witness. -/
def c6_w_iface : ASTInterface :=
  ⟨"I", [], [], [], []⟩

theorem c6_compare_top_level_witness :
    iface_chunk_old [] ("I", c6_w_iface) =
      [(OUTPUT_BACKWARDS_INCOMPATIBLE, "Interface ‘I’ has been removed.")] ∧
    iface_chunk_new [] ("J", c6_w_iface) =
      [(OUTPUT_FORWARDS_INCOMPATIBLE, "Interface ‘J’ has been added.")] ∧
    iface_chunk_new [("I", c6_w_iface)] ("I", c6_w_iface) = [] :=
  ⟨(c6_compare_top_level [("I", c6_w_iface)] []).2.1 ("I", c6_w_iface) rfl,
   (c6_compare_top_level [] [("J", c6_w_iface)]).2.2.2.1 ("J", c6_w_iface) rfl,
   (c6_compare_top_level [("I", c6_w_iface)] [("I", c6_w_iface)]).2.2.2.2.1
     ("I", c6_w_iface) (by decide)⟩

/-! Claim C7: comparing a well-formed mapping against itself emits
nothing. -/

/-- Key uniqueness inside one interface: Python dict keys are unique per
kind. -/
def wf_interface (i : ASTInterface) : Prop :=
  (i.methods.map Prod.fst).Nodup ∧ (i.properties.map Prod.fst).Nodup ∧
  (i.signals.map Prod.fst).Nodup

/-- A valid interface mapping: unique interface names, and each interface
with unique member names per kind. -/
def wf_mapping (m : List (String × ASTInterface)) : Prop :=
  (m.map Prod.fst).Nodup ∧ ∀ p ∈ m, wf_interface p.2

instance (i : ASTInterface) : Decidable (wf_interface i) := by
  unfold wf_interface; infer_instance

instance (m : List (String × ASTInterface)) : Decidable (wf_mapping m) := by
  unfold wf_mapping; infer_instance

theorem lookupAssoc_self {α : Type} (l : List (String × α))
    (h : (l.map Prod.fst).Nodup) (p : String × α) (hp : p ∈ l) :
    lookupAssoc l p.1 = some p.2 := by
  induction l with
  | nil => cases hp
  | cons q rest ih =>
    simp only [List.map_cons, List.nodup_cons] at h
    rcases List.mem_cons.mp hp with rfl | hmem
    · simp [lookupAssoc]
    · simp only [lookupAssoc]
      split_ifs with he
      · exact absurd (he ▸ List.mem_map_of_mem Prod.fst hmem) h.1
      · exact ih h.2 hmem

theorem foldl_out_id {α : Type} (f : List Msg → α → List Msg) :
    ∀ l : List α, (∀ x ∈ l, ∀ out : List Msg, f out x = out) →
      ∀ out : List Msg, l.foldl f out = out := by
  intro l
  induction l with
  | nil => intro _ _; rfl
  | cons x xs ih =>
    intro hf out
    rw [List.foldl_cons, hf x (List.mem_cons_self x xs)]
    exact ih (fun y hy => hf y (List.mem_cons_of_mem x hy)) out

theorem deprecated_diff_refl (nd : AnnNode) (out : List Msg) :
    deprecated_diff nd nd out = out := by
  simp [deprecated_diff]

theorem csymbol_diff_refl (nd : AnnNode) (out : List Msg) :
    csymbol_diff nd nd out = out := by
  simp [csymbol_diff]

theorem no_reply_diff_refl (nd : AnnNode) (out : List Msg) :
    no_reply_diff nd nd out = out := by
  simp [no_reply_diff]

theorem ecs_diff_refl (nd : AnnNode) (out : List Msg) :
    ecs_diff nd nd out = out := by
  rw [ecs_diff_append]
  rw [show ecs_diffP nd nd = [] from ecs_diff_eff_eq nd nd rfl]
  simp

theorem compare_annotations_refl (nd : AnnNode) (out : List Msg) :
    compare_annotations nd nd out = out := by
  simp [compare_annotations, deprecated_diff_refl, csymbol_diff_refl,
    no_reply_diff_refl, ecs_diff_refl]

theorem compare_arguments_refl (fn : String) (a : ASTArgument) (out : List Msg) :
    compare_arguments fn a a out = out := by
  simp [compare_arguments, compare_annotations_refl]

theorem compare_methods_refl (iname : String) (m : ASTMethod) (out : List Msg) :
    compare_methods iname iname m m out = out := by
  simp only [compare_methods, Nat.max_self]
  have hstep : ∀ i ∈ List.range m.arguments.length, ∀ out' : List Msg,
      arg_index_step "method" (memberFormatName iname m.name)
        (memberFormatName iname m.name) m.arguments m.arguments out' i = out' := by
    intro i hi out'
    have hlt := List.mem_range.mp hi
    simp [arg_index_step, Nat.not_le.mpr hlt, compare_arguments_refl]
  rw [foldl_out_id _ _ hstep]
  exact compare_annotations_refl _ out

theorem compare_signals_refl (iname : String) (s : ASTSignal) (out : List Msg) :
    compare_signals iname iname s s out = out := by
  simp only [compare_signals, Nat.max_self]
  have hstep : ∀ i ∈ List.range s.arguments.length, ∀ out' : List Msg,
      arg_index_step "signal" (memberFormatName iname s.name)
        (memberFormatName iname s.name) s.arguments s.arguments out' i = out' := by
    intro i hi out'
    have hlt := List.mem_range.mp hi
    simp [arg_index_step, Nat.not_le.mpr hlt, compare_arguments_refl]
  rw [foldl_out_id _ _ hstep]
  exact compare_annotations_refl _ out

theorem access_cond_self_false (a : String) :
    ((a == ASTProperty.ACCESS_READ || a == ASTProperty.ACCESS_WRITE) &&
      (a == ASTProperty.ACCESS_READWRITE)) = false := by
  by_cases h : a = "readwrite"
  · simp [ASTProperty.ACCESS_READ, ASTProperty.ACCESS_WRITE,
      ASTProperty.ACCESS_READWRITE, h]
  · have hb : (a == ASTProperty.ACCESS_READWRITE) = false := by
      simp [ASTProperty.ACCESS_READWRITE, h]
    simp [hb]

theorem compare_properties_refl (i : ASTInterface) (p : ASTProperty) (out : List Msg) :
    compare_properties i i p p out = out := by
  simp only [compare_properties, property_type_diff, property_access_diff,
    access_cond_self_false]
  simp [compare_annotations_refl]

theorem compare_interfaces_refl (i : ASTInterface) (wf : wf_interface i)
    (out : List Msg) : compare_interfaces i i out = out := by
  obtain ⟨hm, hp, hs⟩ := wf
  simp only [compare_interfaces]
  have h1 : ∀ p ∈ i.methods, ∀ out' : List Msg,
      (match lookupAssoc i.methods p.1 with
        | none =>
          issue_output out' OUTPUT_BACKWARDS_INCOMPATIBLE
            ("Method ‘" ++ memberFormatName i.name p.2.name ++ "’ has been removed.")
        | some m2 => compare_methods i.name i.name p.2 m2 out') = out' := by
    intro p hq out'
    rw [lookupAssoc_self i.methods hm p hq]
    exact compare_methods_refl i.name p.2 out'
  have h2 : ∀ p ∈ i.methods, ∀ out' : List Msg,
      (if (lookupAssoc i.methods p.1).isNone then
        issue_output out' OUTPUT_FORWARDS_INCOMPATIBLE
          ("Method ‘" ++ memberFormatName i.name p.2.name ++ "’ has been added.")
      else out') = out' := by
    intro p hq out'
    rw [lookupAssoc_self i.methods hm p hq]
    rfl
  have h3 : ∀ p ∈ i.properties, ∀ out' : List Msg,
      (match lookupAssoc i.properties p.1 with
        | none =>
          issue_output out' OUTPUT_BACKWARDS_INCOMPATIBLE
            ("Property ‘" ++ memberFormatName i.name p.2.name ++ "’ has been removed.")
        | some p2 => compare_properties i i p.2 p2 out') = out' := by
    intro p hq out'
    rw [lookupAssoc_self i.properties hp p hq]
    exact compare_properties_refl i p.2 out'
  have h4 : ∀ p ∈ i.properties, ∀ out' : List Msg,
      (if (lookupAssoc i.properties p.1).isNone then
        issue_output out' OUTPUT_FORWARDS_INCOMPATIBLE
          ("Property ‘" ++ memberFormatName i.name p.2.name ++ "’ has been added.")
      else out') = out' := by
    intro p hq out'
    rw [lookupAssoc_self i.properties hp p hq]
    rfl
  have h5 : ∀ p ∈ i.signals, ∀ out' : List Msg,
      (match lookupAssoc i.signals p.1 with
        | none =>
          issue_output out' OUTPUT_BACKWARDS_INCOMPATIBLE
            ("Signal ‘" ++ memberFormatName i.name p.2.name ++ "’ has been removed.")
        | some s2 => compare_signals i.name i.name p.2 s2 out') = out' := by
    intro p hq out'
    rw [lookupAssoc_self i.signals hs p hq]
    exact compare_signals_refl i.name p.2 out'
  have h6 : ∀ p ∈ i.signals, ∀ out' : List Msg,
      (if (lookupAssoc i.signals p.1).isNone then
        issue_output out' OUTPUT_FORWARDS_INCOMPATIBLE
          ("Signal ‘" ++ memberFormatName i.name p.2.name ++ "’ has been added.")
      else out') = out' := by
    intro p hq out'
    rw [lookupAssoc_self i.signals hs p hq]
    rfl
  rw [foldl_out_id _ _ h6, foldl_out_id _ _ h5, foldl_out_id _ _ h4,
    foldl_out_id _ _ h3, foldl_out_id _ _ h2, foldl_out_id _ _ h1]
  exact compare_annotations_refl _ out

/-- C7: for every well-formed interface mapping X, comparing X against
itself stores no entries at all, and the value returned by `compare()` is
empty under every choice of enabled warning categories. -/
theorem c7_compare_self (X : List (String × ASTInterface)) (hX : wf_mapping X) :
    compare_full X X = [] ∧
    ∀ (out0 : List Msg) (w : List String),
      (InterfaceComparator.compare ⟨X, X, out0, w⟩).2 = [] := by
  obtain ⟨hnodup, hwf⟩ := hX
  have hfull : compare_full X X = [] := by
    simp only [compare_full, compare_into]
    have h1 : ∀ p ∈ X, ∀ out' : List Msg,
        (match lookupAssoc X p.1 with
          | none =>
            issue_output out' OUTPUT_BACKWARDS_INCOMPATIBLE
              ("Interface ‘" ++ p.1 ++ "’ has been removed.")
          | some i2 => compare_interfaces p.2 i2 out') = out' := by
      intro p hq out'
      rw [lookupAssoc_self X hnodup p hq]
      exact compare_interfaces_refl p.2 (hwf p hq) out'
    have h2 : ∀ p ∈ X, ∀ out' : List Msg,
        (if (lookupAssoc X p.1).isNone then
          issue_output out' OUTPUT_FORWARDS_INCOMPATIBLE
            ("Interface ‘" ++ p.1 ++ "’ has been added.")
        else out') = out' := by
      intro p hq out'
      rw [lookupAssoc_self X hnodup p hq]
      rfl
    rw [foldl_out_id _ _ h2, foldl_out_id _ _ h1]
  refine ⟨hfull, ?_⟩
  intro out0 w
  simp only [InterfaceComparator.compare, InterfaceComparator.get_output]
  rw [show compare_into X X [] = compare_full X X from rfl, hfull]
  rfl

/-- Mapping used by the C7 witness: one interface with one method (with
an argument and a Deprecated annotation), one property and one signal,
and an interface-level Emits-changed-signal annotation. -/
def c7_w_mapping : List (String × ASTInterface) :=
  [("I", ⟨"I",
    [("M", ⟨"M", [⟨"x", "s", "in", 0, []⟩],
      [("org.freedesktop.DBus.Deprecated", "true")]⟩)],
    [("P", ⟨"P", "s", "read", []⟩)],
    [("S", ⟨"S", [], []⟩)],
    [(ecsAnnName, "invalidates")]⟩)]

theorem c7_compare_self_witness :
    compare_full c7_w_mapping c7_w_mapping = [] ∧
    (InterfaceComparator.compare
      ⟨c7_w_mapping, c7_w_mapping, [], WARNING_CATEGORIES⟩).2 = [] :=
  ⟨(c7_compare_self c7_w_mapping (by decide)).1,
   (c7_compare_self c7_w_mapping (by decide)).2 [] WARNING_CATEGORIES⟩

/-! Claim C8: the No-reply annotation and the irrelevance of all other
annotation names. -/

theorem lookupAnn_cons_ne (k v nm : String) (l : List (String × String))
    (hne : k ≠ nm) : lookupAnn ((k, v) :: l) nm = lookupAnn l nm := by
  cases h : lookupAnn l nm <;> simp [lookupAnn, h, hne]

/-- C8: the No-reply annotation reads as a boolean defaulting to false
when absent; a change of its effective value in either direction emits
exactly one BackwardsIncompatible message and equality emits nothing; the
whole annotation comparison depends only on the effective values of the
four well-known annotation names (and the old node's format name), so an
annotation under any other name — here, one freshly prepended — never
changes the emitted diagnostics. -/
theorem c8_no_reply_other_names_ignored (o n o2 n2 : AnnNode) :
    (lookupAnn o.annotations "org.freedesktop.DBus.Method.NoReply" = none →
      get_bool_ann o "org.freedesktop.DBus.Method.NoReply" false = false) ∧
    (∀ v : String,
      lookupAnn o.annotations "org.freedesktop.DBus.Method.NoReply" = some v →
      get_bool_ann o "org.freedesktop.DBus.Method.NoReply" false = (v == "true")) ∧
    (get_bool_ann o "org.freedesktop.DBus.Method.NoReply" false = true →
      get_bool_ann n "org.freedesktop.DBus.Method.NoReply" false = false →
      no_reply_diffP o n =
        [(OUTPUT_BACKWARDS_INCOMPATIBLE,
          "Node ‘" ++ o.format_name ++ "’ has been marked as returning a reply.")]) ∧
    (get_bool_ann o "org.freedesktop.DBus.Method.NoReply" false = false →
      get_bool_ann n "org.freedesktop.DBus.Method.NoReply" false = true →
      no_reply_diffP o n =
        [(OUTPUT_BACKWARDS_INCOMPATIBLE,
          "Node ‘" ++ o.format_name ++ "’ has been marked as not returning a reply.")]) ∧
    (get_bool_ann o "org.freedesktop.DBus.Method.NoReply" false =
      get_bool_ann n "org.freedesktop.DBus.Method.NoReply" false →
      no_reply_diffP o n = []) ∧
    (o.format_name = o2.format_name →
      get_bool_ann o "org.freedesktop.DBus.Deprecated" false =
        get_bool_ann o2 "org.freedesktop.DBus.Deprecated" false →
      get_bool_ann n "org.freedesktop.DBus.Deprecated" false =
        get_bool_ann n2 "org.freedesktop.DBus.Deprecated" false →
      get_string_ann o "org.freedesktop.DBus.GLib.CSymbol" "" =
        get_string_ann o2 "org.freedesktop.DBus.GLib.CSymbol" "" →
      get_string_ann n "org.freedesktop.DBus.GLib.CSymbol" "" =
        get_string_ann n2 "org.freedesktop.DBus.GLib.CSymbol" "" →
      get_bool_ann o "org.freedesktop.DBus.Method.NoReply" false =
        get_bool_ann o2 "org.freedesktop.DBus.Method.NoReply" false →
      get_bool_ann n "org.freedesktop.DBus.Method.NoReply" false =
        get_bool_ann n2 "org.freedesktop.DBus.Method.NoReply" false →
      get_emits_changed_signal o = get_emits_changed_signal o2 →
      get_emits_changed_signal n = get_emits_changed_signal n2 →
      compare_annotationsP o n = compare_annotationsP o2 n2) ∧
    (∀ k v : String, k ≠ "org.freedesktop.DBus.Deprecated" →
      k ≠ "org.freedesktop.DBus.GLib.CSymbol" →
      k ≠ "org.freedesktop.DBus.Method.NoReply" → k ≠ ecsAnnName →
      compare_annotationsP
        ⟨o.format_name, (k, v) :: o.annotations, o.is_property, o.iface_annotations⟩ n =
        compare_annotationsP o n) := by
  have hinv : ∀ oa ob na nb : AnnNode, oa.format_name = ob.format_name →
      get_bool_ann oa "org.freedesktop.DBus.Deprecated" false =
        get_bool_ann ob "org.freedesktop.DBus.Deprecated" false →
      get_bool_ann na "org.freedesktop.DBus.Deprecated" false =
        get_bool_ann nb "org.freedesktop.DBus.Deprecated" false →
      get_string_ann oa "org.freedesktop.DBus.GLib.CSymbol" "" =
        get_string_ann ob "org.freedesktop.DBus.GLib.CSymbol" "" →
      get_string_ann na "org.freedesktop.DBus.GLib.CSymbol" "" =
        get_string_ann nb "org.freedesktop.DBus.GLib.CSymbol" "" →
      get_bool_ann oa "org.freedesktop.DBus.Method.NoReply" false =
        get_bool_ann ob "org.freedesktop.DBus.Method.NoReply" false →
      get_bool_ann na "org.freedesktop.DBus.Method.NoReply" false =
        get_bool_ann nb "org.freedesktop.DBus.Method.NoReply" false →
      get_emits_changed_signal oa = get_emits_changed_signal ob →
      get_emits_changed_signal na = get_emits_changed_signal nb →
      compare_annotationsP oa na = compare_annotationsP ob nb := by
    intro oa ob na nb hfn hdo hdn hco hcn hno hnn heo hen
    simp only [compare_annotationsP, compare_annotations, deprecated_diff,
      csymbol_diff, no_reply_diff, ecs_diff, hfn, hdo, hdn, hco, hcn, hno,
      hnn, heo, hen]
  refine ⟨?_, ?_, ?_, ?_, ?_, hinv o o2 n n2, ?_⟩
  · intro h
    simp [get_bool_ann, h]
  · intro v h
    simp [get_bool_ann, h]
  · intro h1 h2
    simp [no_reply_diffP, no_reply_diff, issue_output, h1, h2]
  · intro h1 h2
    simp [no_reply_diffP, no_reply_diff, issue_output, h1, h2]
  · intro h
    simp only [no_reply_diffP, no_reply_diff, ← h]
    cases get_bool_ann o "org.freedesktop.DBus.Method.NoReply" false <;> simp
  · intro k v h1 h2 h3 h4
    apply hinv
    · rfl
    · simp [get_bool_ann, lookupAnn_cons_ne k v _ _ h1]
    · rfl
    · simp [get_string_ann, lookupAnn_cons_ne k v _ _ h2]
    · rfl
    · simp [get_bool_ann, lookupAnn_cons_ne k v _ _ h3]
    · rfl
    · simp [get_emits_changed_signal, lookupAnn_cons_ne k v _ _ h4]
    · rfl

/-- Old-side node of the C8 witness: the spec scenario's method with
No-reply `true`. -/
def c8_w_old : AnnNode :=
  ⟨"I.M", [("org.freedesktop.DBus.Method.NoReply", "true")], false, []⟩

/-- New-side node of the C8 witness: no annotations, so No-reply defaults
to false. -/
def c8_w_new : AnnNode :=
  ⟨"I.M", [], false, []⟩

theorem c8_no_reply_other_names_ignored_witness :
    no_reply_diffP c8_w_old c8_w_new =
      [(OUTPUT_BACKWARDS_INCOMPATIBLE,
        "Node ‘" ++ c8_w_old.format_name ++ "’ has been marked as returning a reply.")] ∧
    compare_annotationsP
      ⟨c8_w_old.format_name, ("com.example.Colour", "red") :: c8_w_old.annotations,
        c8_w_old.is_property, c8_w_old.iface_annotations⟩ c8_w_new =
      compare_annotationsP c8_w_old c8_w_new :=
  ⟨(c8_no_reply_other_names_ignored c8_w_old c8_w_new c8_w_old c8_w_new).2.2.1
      (by decide) (by decide),
   (c8_no_reply_other_names_ignored c8_w_old c8_w_new c8_w_old c8_w_new).2.2.2.2.2.2
      "com.example.Colour" "red" (by decide) (by decide) (by decide) (by decide)⟩

/-! Claim C9: enabled warning categories never affect what `compare`
computes and stores, only what `get_output` reads back. -/

theorem foldl_filter_acc {α : Type} (p : α → Bool) :
    ∀ (l : List α) (acc : List α),
      List.foldl (fun acc e => if p e then acc ++ [e] else acc) acc l =
        acc ++ l.filter p := by
  intro l
  induction l with
  | nil => intro acc; simp
  | cons x xs ih =>
    intro acc
    rw [List.foldl_cons]
    by_cases h : p x
    · rw [if_pos h, ih (acc ++ [x]), List.filter_cons_of_pos h]
      simp
    · rw [if_neg h, ih acc, List.filter_cons_of_neg h]

/-- C9: two comparators over the same pair of mappings that differ only
in their enabled warning categories (and stale stored output) store
identical full results after `compare()`; the categories act purely as a
read-time filter in `get_output`, so re-reading under a different filter
needs no recomputation. -/
theorem c9_enabled_warnings_read_time (old_interfaces new_interfaces :
    List (String × ASTInterface)) (out1 out2 : List Msg) (w1 w2 : List String) :
    ((InterfaceComparator.compare
        ⟨old_interfaces, new_interfaces, out1, w1⟩).1.output =
      (InterfaceComparator.compare
        ⟨old_interfaces, new_interfaces, out2, w2⟩).1.output) ∧
    (∀ c : InterfaceComparator,
      c.get_output = c.output.filter (fun e => warning_enabled c e.1)) := by
  constructor
  · rfl
  · intro c
    simp only [InterfaceComparator.get_output]
    rw [foldl_filter_acc (fun e : Msg => warning_enabled c e.1) c.output []]
    rfl

/-! Claim C10: `compare()` clears the stored output first, so it is
repeat-call idempotent and its return value equals a subsequent
`get_output()`. -/

/-- C10: `compare()` resets the stored output before comparing, so a
second call returns exactly the first call's state and value, and the
value `compare()` returns is precisely `get_output()` of the resulting
state. -/
theorem c10_compare_repeat (c : InterfaceComparator) :
    (InterfaceComparator.compare (InterfaceComparator.compare c).1 =
      InterfaceComparator.compare c) ∧
    ((InterfaceComparator.compare c).2 =
      (InterfaceComparator.compare c).1.get_output) := by
  constructor
  · rfl
  · rfl

/-! Claim C5: recovery-mode parsing.  The `dbusapi.ast` parser module is
not among the sources (only its test suite is), so the parser is modelled
from the spec's grammar of §4.2 and the literal messages and ledger codes
of the tests. -/

/-- Modelled from the spec: the parsed XML document tree, the input of the
missing `dbusapi.ast.parse`.  An element has a tag, attributes and
children; a markup comment may appear between elements. -/
inductive Xml where
  | elem (tag : String) (attrs : List (String × String)) (children : List Xml)
  | comment (text : String)

/-- One Diagnostics Ledger entry as the recovery tests see it: the stable
error code and the human-readable message (the tests' source-identifier
and `parser` stage fields are constant). -/
abbrev LogEntry := String × String

/-- Modelled from the spec: a namespaced tag (`tp:docstring`, `doc:doc`,
`tp:copyright`, ...) is a documentation element, recognized but never
structural. -/
def isDocTag (t : String) : Bool := t.contains ':'

/-- Attribute lookup on an element. -/
def attr (attrs : List (String × String)) (k : String) : Option String :=
  lookupAssoc attrs k

/-- Modelled from the spec: scan of one child of an `<annotation>`
element, whose only permitted children are documentation elements. -/
def ann_child_errs (ann_name : String) : Xml → List LogEntry
  | .comment _ => []
  | .elem t _ _ =>
    if isDocTag t then []
    else
      [("unknown-node",
        "Unknown node ‘" ++ t ++ "’ in annotation ‘" ++ ann_name ++ "’.")]

/-- Modelled from the spec: recovery-mode parse of one `<annotation>`
element.  Both required attributes are checked (the recovery tests log
both a missing `name` and a missing `value` on one element); children are
validated only when the name needed for their diagnostics is present; the
name/value pair is produced only when both attributes are present. -/
def parse_ann_elem (attrs : List (String × String)) (children : List Xml) :
    List LogEntry × Option (String × String) :=
  let name_errs : List LogEntry :=
    if (attr attrs "name").isNone then
      [("missing-attribute", "Missing required attribute ‘name’ in annotation.")]
    else []
  let value_errs : List LogEntry :=
    if (attr attrs "value").isNone then
      [("missing-attribute", "Missing required attribute ‘value’ in annotation.")]
    else []
  match attr attrs "name", attr attrs "value" with
  | some nm, some v =>
    (name_errs ++ value_errs ++ children.flatMap (ann_child_errs nm), some (nm, v))
  | some nm, none =>
    (name_errs ++ value_errs ++ children.flatMap (ann_child_errs nm), none)
  | none, _ => (name_errs ++ value_errs, none)

/-- Display name of an `<arg>` element, `unnamed` when the optional name
attribute is absent. -/
def arg_display (attrs : List (String × String)) : String :=
  if (attr attrs "name").getD "" = "" then "unnamed" else (attr attrs "name").getD ""

/-- Modelled from the spec: recovery-mode scan of the children of an
`<arg>` element (annotation and documentation elements permitted),
collecting ledger entries and the argument's annotations. -/
def parse_arg_children (display : String) :
    List Xml → List LogEntry × List (String × String)
  | [] => ([], [])
  | c :: rest =>
    match c with
    | .comment _ => parse_arg_children display rest
    | .elem t attrs children =>
      if t = "annotation" then
        ((parse_ann_elem attrs children).1 ++ (parse_arg_children display rest).1,
         (match (parse_ann_elem attrs children).2 with
          | some p => [p]
          | none => []) ++ (parse_arg_children display rest).2)
      else if isDocTag t then parse_arg_children display rest
      else
        (("unknown-node",
          "Unknown node ‘" ++ t ++ "’ in argument ‘" ++ display ++ "’.") ::
          (parse_arg_children display rest).1,
         (parse_arg_children display rest).2)

/-- Modelled from the spec: recovery-mode parse of one `<arg>` element at
positional index `index`; `type` is required, `name` and `direction` are
optional. -/
def parse_arg_elem (index : Nat) (attrs : List (String × String))
    (children : List Xml) : List LogEntry × Option ASTArgument :=
  match attr attrs "type" with
  | some ty =>
    ((parse_arg_children (arg_display attrs) children).1,
     some ⟨(attr attrs "name").getD "", ty, (attr attrs "direction").getD "", index,
       (parse_arg_children (arg_display attrs) children).2⟩)
  | none =>
    (("missing-attribute", "Missing required attribute ‘type’ in arg.") ::
      (parse_arg_children (arg_display attrs) children).1, none)

/-- Modelled from the spec: recovery-mode scan of the children of a
`<method>` or `<signal>` element (arg, annotation and documentation
elements permitted), threading the argument list (whose length is the
next positional index) and the member's annotations. -/
def parse_member_children (ctx : String) (args : List ASTArgument)
    (anns : List (String × String)) :
    List Xml → List LogEntry × List ASTArgument × List (String × String)
  | [] => ([], args, anns)
  | c :: rest =>
    match c with
    | .comment _ => parse_member_children ctx args anns rest
    | .elem t attrs children =>
      if t = "arg" then
        ((parse_arg_elem args.length attrs children).1 ++
          (parse_member_children ctx
            (args ++ (match (parse_arg_elem args.length attrs children).2 with
              | some a => [a]
              | none => [])) anns rest).1,
         (parse_member_children ctx
            (args ++ (match (parse_arg_elem args.length attrs children).2 with
              | some a => [a]
              | none => [])) anns rest).2)
      else if t = "annotation" then
        ((parse_ann_elem attrs children).1 ++
          (parse_member_children ctx args
            (anns ++ (match (parse_ann_elem attrs children).2 with
              | some p => [p]
              | none => [])) rest).1,
         (parse_member_children ctx args
            (anns ++ (match (parse_ann_elem attrs children).2 with
              | some p => [p]
              | none => [])) rest).2)
      else if isDocTag t then parse_member_children ctx args anns rest
      else
        (("unknown-node", "Unknown node ‘" ++ t ++ "’ in " ++ ctx ++ ".") ::
          (parse_member_children ctx args anns rest).1,
         (parse_member_children ctx args anns rest).2)

/-- Modelled from the spec: recovery-mode parse of one `<method>` or
`<signal>` element (`kind` is the literal tag); `name` is required and a
member without it is skipped whole after the one ledger entry. -/
def parse_method_elem (kind : String) (attrs : List (String × String))
    (children : List Xml) : List LogEntry × Option ASTMethod :=
  match attr attrs "name" with
  | none =>
    ([("missing-attribute", "Missing required attribute ‘name’ in " ++ kind ++ ".")],
     none)
  | some nm =>
    ((parse_member_children (kind ++ " ‘" ++ nm ++ "’") [] [] children).1,
     some ⟨nm, (parse_member_children (kind ++ " ‘" ++ nm ++ "’") [] [] children).2.1,
       (parse_member_children (kind ++ " ‘" ++ nm ++ "’") [] [] children).2.2⟩)

/-- Modelled from the spec: recovery-mode scan of the children of a
`<property>` element (annotation and documentation elements permitted). -/
def parse_prop_children (pname : String) (anns : List (String × String)) :
    List Xml → List LogEntry × List (String × String)
  | [] => ([], anns)
  | c :: rest =>
    match c with
    | .comment _ => parse_prop_children pname anns rest
    | .elem t attrs children =>
      if t = "annotation" then
        ((parse_ann_elem attrs children).1 ++
          (parse_prop_children pname
            (anns ++ (match (parse_ann_elem attrs children).2 with
              | some p => [p]
              | none => [])) rest).1,
         (parse_prop_children pname
            (anns ++ (match (parse_ann_elem attrs children).2 with
              | some p => [p]
              | none => [])) rest).2)
      else if isDocTag t then parse_prop_children pname anns rest
      else
        (("unknown-node", "Unknown node ‘" ++ t ++ "’ in property ‘" ++ pname ++ "’.") ::
          (parse_prop_children pname anns rest).1,
         (parse_prop_children pname anns rest).2)

/-- Modelled from the spec: recovery-mode parse of one `<property>`
element; `name`, `type` and `access` are each independently required and
independently reported; children are validated only when the name needed
for their diagnostics is present; the property is produced only when all
three attributes are present. -/
def parse_prop_elem (attrs : List (String × String)) (children : List Xml) :
    List LogEntry × Option ASTProperty :=
  let name_errs : List LogEntry :=
    if (attr attrs "name").isNone then
      [("missing-attribute", "Missing required attribute ‘name’ in property.")]
    else []
  let type_errs : List LogEntry :=
    if (attr attrs "type").isNone then
      [("missing-attribute", "Missing required attribute ‘type’ in property.")]
    else []
  let access_errs : List LogEntry :=
    if (attr attrs "access").isNone then
      [("missing-attribute", "Missing required attribute ‘access’ in property.")]
    else []
  match attr attrs "name" with
  | none => (name_errs ++ type_errs ++ access_errs, none)
  | some nm =>
    match attr attrs "type", attr attrs "access" with
    | some ty, some ac =>
      ((parse_prop_children nm [] children).1,
       some ⟨nm, ty, ac, (parse_prop_children nm [] children).2⟩)
    | _, _ =>
      (type_errs ++ access_errs ++ (parse_prop_children nm [] children).1, none)

/-- Modelled from the spec: recovery-mode scan of the children of an
`<interface>` element, threading the interface under construction;
method, signal, property, annotation and documentation elements are
permitted; a same-kind name collision is a duplicate-node entry and the
duplicate is not inserted. -/
def parse_iface_children (acc : ASTInterface) :
    List Xml → List LogEntry × ASTInterface
  | [] => ([], acc)
  | c :: rest =>
    match c with
    | .comment _ => parse_iface_children acc rest
    | .elem t attrs children =>
      if t = "method" then
        match (parse_method_elem "method" attrs children).2 with
        | none =>
          ((parse_method_elem "method" attrs children).1 ++
            (parse_iface_children acc rest).1,
           (parse_iface_children acc rest).2)
        | some m =>
          if (lookupAssoc acc.methods m.name).isSome then
            ((parse_method_elem "method" attrs children).1 ++
              [("duplicate-node",
                "Duplicate method definition ‘" ++
                memberFormatName acc.name m.name ++ "’.")] ++
              (parse_iface_children acc rest).1,
             (parse_iface_children acc rest).2)
          else
            ((parse_method_elem "method" attrs children).1 ++
              (parse_iface_children
                { acc with methods := acc.methods ++ [(m.name, m)] } rest).1,
             (parse_iface_children
                { acc with methods := acc.methods ++ [(m.name, m)] } rest).2)
      else if t = "signal" then
        match (parse_method_elem "signal" attrs children).2 with
        | none =>
          ((parse_method_elem "signal" attrs children).1 ++
            (parse_iface_children acc rest).1,
           (parse_iface_children acc rest).2)
        | some s =>
          if (lookupAssoc acc.signals s.name).isSome then
            ((parse_method_elem "signal" attrs children).1 ++
              [("duplicate-node",
                "Duplicate signal definition ‘" ++
                memberFormatName acc.name s.name ++ "’.")] ++
              (parse_iface_children acc rest).1,
             (parse_iface_children acc rest).2)
          else
            ((parse_method_elem "signal" attrs children).1 ++
              (parse_iface_children
                { acc with signals := acc.signals ++ [(s.name, s)] } rest).1,
             (parse_iface_children
                { acc with signals := acc.signals ++ [(s.name, s)] } rest).2)
      else if t = "property" then
        match (parse_prop_elem attrs children).2 with
        | none =>
          ((parse_prop_elem attrs children).1 ++ (parse_iface_children acc rest).1,
           (parse_iface_children acc rest).2)
        | some p =>
          if (lookupAssoc acc.properties p.name).isSome then
            ((parse_prop_elem attrs children).1 ++
              [("duplicate-node",
                "Duplicate property definition ‘" ++
                memberFormatName acc.name p.name ++ "’.")] ++
              (parse_iface_children acc rest).1,
             (parse_iface_children acc rest).2)
          else
            ((parse_prop_elem attrs children).1 ++
              (parse_iface_children
                { acc with properties := acc.properties ++ [(p.name, p)] } rest).1,
             (parse_iface_children
                { acc with properties := acc.properties ++ [(p.name, p)] } rest).2)
      else if t = "annotation" then
        match (parse_ann_elem attrs children).2 with
        | none =>
          ((parse_ann_elem attrs children).1 ++ (parse_iface_children acc rest).1,
           (parse_iface_children acc rest).2)
        | some a =>
          ((parse_ann_elem attrs children).1 ++
            (parse_iface_children
              { acc with annotations := acc.annotations ++ [a] } rest).1,
           (parse_iface_children
              { acc with annotations := acc.annotations ++ [a] } rest).2)
      else if isDocTag t then parse_iface_children acc rest
      else
        (("unknown-node",
          "Unknown node ‘" ++ t ++ "’ in interface ‘" ++ acc.name ++ "’.") ::
          (parse_iface_children acc rest).1,
         (parse_iface_children acc rest).2)

/-- Modelled from the spec: recovery-mode scan of the children of the
interface-set (`<node>`) element: interface and documentation elements
are permitted; an interface-name collision is a duplicate-node entry and
the duplicate is not inserted. -/
def parse_root_children (acc : List (String × ASTInterface)) :
    List Xml → List LogEntry × List (String × ASTInterface)
  | [] => ([], acc)
  | c :: rest =>
    match c with
    | .comment _ => parse_root_children acc rest
    | .elem t attrs children =>
      if t = "interface" then
        match attr attrs "name" with
        | none =>
          (("missing-attribute", "Missing required attribute ‘name’ in interface.") ::
            (parse_root_children acc rest).1,
           (parse_root_children acc rest).2)
        | some nm =>
          if (lookupAssoc acc nm).isSome then
            ((parse_iface_children ⟨nm, [], [], [], []⟩ children).1 ++
              [("duplicate-node", "Duplicate interface definition ‘" ++ nm ++ "’.")] ++
              (parse_root_children acc rest).1,
             (parse_root_children acc rest).2)
          else
            ((parse_iface_children ⟨nm, [], [], [], []⟩ children).1 ++
              (parse_root_children
                (acc ++ [(nm, (parse_iface_children ⟨nm, [], [], [], []⟩ children).2)])
                rest).1,
             (parse_root_children
                (acc ++ [(nm, (parse_iface_children ⟨nm, [], [], [], []⟩ children).2)])
                rest).2)
      else if isDocTag t then parse_root_children acc rest
      else
        (("unknown-node", "Unknown node ‘" ++ t ++ "’ in root.") ::
          (parse_root_children acc rest).1,
         (parse_root_children acc rest).2)

/-- Test for the interface-set element inside a vendor wrapper. -/
def isNodeElem : Xml → Bool
  | .elem "node" _ _ => true
  | _ => false

/-- Modelled from the spec: the document root is either the interface-set
element `<node>` directly or the vendor wrapper `<tp:spec>` containing
exactly one interface-set element; anything else is an unknown-root-node
failure. -/
def parse_doc : Xml → List LogEntry × List (String × ASTInterface)
  | .comment _ => ([("unknown-node", "Unknown root node.")], [])
  | .elem t _ children =>
    if t = "node" then parse_root_children [] children
    else if t = "tp:spec" then
      match children.filter isNodeElem with
      | [.elem _ _ ch] => parse_root_children [] ch
      | _ => ([("unknown-node", "Unknown root node ‘" ++ t ++ "’.")], [])
    else ([("unknown-node", "Unknown root node ‘" ++ t ++ "’.")], [])

/-- Modelled from the spec: `parse(source, recover=True)` — every
violation is appended to the ledger in document order and the call yields
a usable interface mapping only when there was no violation at all. -/
def parse_recover (doc : Xml) :
    Option (List (String × ASTInterface)) × List LogEntry :=
  ((if (parse_doc doc).1.isEmpty then some (parse_doc doc).2 else none),
   (parse_doc doc).1)

/-! The declarative side of C5: the grammar violations of a document,
enumerated in document order with their stable codes, independently of
the parser's state threading.  Duplicate detection is expressed with
name lists carried across siblings. -/

/-- Violations of one `<annotation>` element (spec §4.2): missing `name`,
missing `value`, then the unknown children, which are reportable only
when the annotation's name is present. -/
def ann_violations (attrs : List (String × String)) (children : List Xml) :
    List LogEntry :=
  (if (attr attrs "name").isNone then
    [("missing-attribute", "Missing required attribute ‘name’ in annotation.")]
  else []) ++
  (if (attr attrs "value").isNone then
    [("missing-attribute", "Missing required attribute ‘value’ in annotation.")]
  else []) ++
  (match attr attrs "name" with
   | some nm => children.flatMap (ann_child_errs nm)
   | none => [])

/-- Violations of one child of an `<arg>` element. -/
def arg_child_violations (display : String) : Xml → List LogEntry
  | .comment _ => []
  | .elem t attrs children =>
    if t = "annotation" then ann_violations attrs children
    else if isDocTag t then []
    else
      [("unknown-node",
        "Unknown node ‘" ++ t ++ "’ in argument ‘" ++ display ++ "’.")]

/-- Violations of one `<arg>` element: a missing `type`, then the
children's violations (an argument's display name never depends on the
missing attribute, so its children are always validated). -/
def arg_violations (attrs : List (String × String)) (children : List Xml) :
    List LogEntry :=
  (if (attr attrs "type").isNone then
    [("missing-attribute", "Missing required attribute ‘type’ in arg.")]
  else []) ++
  children.flatMap (arg_child_violations (arg_display attrs))

/-- Violations of one child of a `<method>` or `<signal>` element with
context string `ctx`. -/
def member_child_violations (ctx : String) : Xml → List LogEntry
  | .comment _ => []
  | .elem t attrs children =>
    if t = "arg" then arg_violations attrs children
    else if t = "annotation" then ann_violations attrs children
    else if isDocTag t then []
    else [("unknown-node", "Unknown node ‘" ++ t ++ "’ in " ++ ctx ++ ".")]

/-- Violations of one `<method>` or `<signal>` element: a missing `name`
aborts the member, otherwise its children are scanned. -/
def method_violations (kind : String) (attrs : List (String × String))
    (children : List Xml) : List LogEntry :=
  match attr attrs "name" with
  | none =>
    [("missing-attribute", "Missing required attribute ‘name’ in " ++ kind ++ ".")]
  | some nm =>
    children.flatMap (member_child_violations (kind ++ " ‘" ++ nm ++ "’"))

/-- Violations of one child of a `<property>` element named `pname`. -/
def prop_child_violations (pname : String) : Xml → List LogEntry
  | .comment _ => []
  | .elem t attrs children =>
    if t = "annotation" then ann_violations attrs children
    else if isDocTag t then []
    else
      [("unknown-node",
        "Unknown node ‘" ++ t ++ "’ in property ‘" ++ pname ++ "’.")]

/-- Violations of one `<property>` element: each of `name`, `type` and
`access` is independently reported; children are scanned only when the
name needed for their diagnostics is present. -/
def property_violations (attrs : List (String × String)) (children : List Xml) :
    List LogEntry :=
  (if (attr attrs "name").isNone then
    [("missing-attribute", "Missing required attribute ‘name’ in property.")]
  else []) ++
  (if (attr attrs "type").isNone then
    [("missing-attribute", "Missing required attribute ‘type’ in property.")]
  else []) ++
  (if (attr attrs "access").isNone then
    [("missing-attribute", "Missing required attribute ‘access’ in property.")]
  else []) ++
  (match attr attrs "name" with
   | some nm => children.flatMap (prop_child_violations nm)
   | none => [])

/-- The same-kind member names already declared, for duplicate
detection. -/
structure SeenNames where
  methods : List String
  properties : List String
  signals : List String

/-- Violations of one child of an `<interface>` named `iname`, given the
member names already seen: the child's own violations, then a
duplicate-node entry when a successfully built same-kind member reuses a
seen name. -/
def iface_child_violations (iname : String) (seen : SeenNames) :
    Xml → List LogEntry
  | .comment _ => []
  | .elem t attrs children =>
    if t = "method" then
      method_violations "method" attrs children ++
      (match attr attrs "name" with
       | some nm =>
        if seen.methods.contains nm then
          [("duplicate-node",
            "Duplicate method definition ‘" ++ memberFormatName iname nm ++ "’.")]
        else []
       | none => [])
    else if t = "signal" then
      method_violations "signal" attrs children ++
      (match attr attrs "name" with
       | some nm =>
        if seen.signals.contains nm then
          [("duplicate-node",
            "Duplicate signal definition ‘" ++ memberFormatName iname nm ++ "’.")]
        else []
       | none => [])
    else if t = "property" then
      property_violations attrs children ++
      (match attr attrs "name", attr attrs "type", attr attrs "access" with
       | some nm, some _, some _ =>
        if seen.properties.contains nm then
          [("duplicate-node",
            "Duplicate property definition ‘" ++ memberFormatName iname nm ++ "’.")]
        else []
       | _, _, _ => [])
    else if t = "annotation" then ann_violations attrs children
    else if isDocTag t then []
    else
      [("unknown-node", "Unknown node ‘" ++ t ++ "’ in interface ‘" ++ iname ++ "’.")]

/-- How one interface child extends the seen member names: a successfully
built member contributes its name to its kind (first occurrence only). -/
def iface_child_update (seen : SeenNames) : Xml → SeenNames
  | .comment _ => seen
  | .elem t attrs _ =>
    if t = "method" then
      match attr attrs "name" with
      | some nm =>
        if seen.methods.contains nm then seen
        else { seen with methods := seen.methods ++ [nm] }
      | none => seen
    else if t = "signal" then
      match attr attrs "name" with
      | some nm =>
        if seen.signals.contains nm then seen
        else { seen with signals := seen.signals ++ [nm] }
      | none => seen
    else if t = "property" then
      match attr attrs "name", attr attrs "type", attr attrs "access" with
      | some nm, some _, some _ =>
        if seen.properties.contains nm then seen
        else { seen with properties := seen.properties ++ [nm] }
      | _, _, _ => seen
    else seen

/-- Violations of an `<interface>` element's child list, in document
order. -/
def iface_children_violations (iname : String) (seen : SeenNames) :
    List Xml → List LogEntry
  | [] => []
  | c :: rest =>
    iface_child_violations iname seen c ++
    iface_children_violations iname (iface_child_update seen c) rest

/-- Violations of one child of the interface-set element, given the
interface names already seen. -/
def root_child_violations (seen : List String) : Xml → List LogEntry
  | .comment _ => []
  | .elem t attrs children =>
    if t = "interface" then
      match attr attrs "name" with
      | none =>
        [("missing-attribute", "Missing required attribute ‘name’ in interface.")]
      | some nm =>
        iface_children_violations nm ⟨[], [], []⟩ children ++
        (if seen.contains nm then
          [("duplicate-node", "Duplicate interface definition ‘" ++ nm ++ "’.")]
        else [])
    else if isDocTag t then []
    else [("unknown-node", "Unknown node ‘" ++ t ++ "’ in root.")]

/-- How one root child extends the seen interface names. -/
def root_child_update (seen : List String) : Xml → List String
  | .comment _ => seen
  | .elem t attrs _ =>
    if t = "interface" then
      match attr attrs "name" with
      | some nm => if seen.contains nm then seen else seen ++ [nm]
      | none => seen
    else seen

/-- Violations of the interface-set element's child list, in document
order. -/
def root_children_violations (seen : List String) : List Xml → List LogEntry
  | [] => []
  | c :: rest =>
    root_child_violations seen c ++
    root_children_violations (root_child_update seen c) rest

/-- All grammar violations of a document, in document order, each under
its stable ledger code. -/
def doc_violations : Xml → List LogEntry
  | .comment _ => [("unknown-node", "Unknown root node.")]
  | .elem t _ children =>
    if t = "node" then root_children_violations [] children
    else if t = "tp:spec" then
      match children.filter isNodeElem with
      | [.elem _ _ ch] => root_children_violations [] ch
      | _ => [("unknown-node", "Unknown root node ‘" ++ t ++ "’.")]
    else [("unknown-node", "Unknown root node ‘" ++ t ++ "’.")]

/-! Bridge lemmas: the recovery parser's ledger component equals the
declarative violation enumeration, layer by layer. -/

theorem lookupAssoc_isSome {α : Type} (l : List (String × α)) (k : String) :
    (lookupAssoc l k).isSome = (l.map Prod.fst).contains k := by
  induction l with
  | nil => rfl
  | cons p rest ih =>
    by_cases h : p.1 = k
    · simp [lookupAssoc, h]
    · simp only [lookupAssoc, if_neg h, List.map_cons, List.contains_cons, ih]
      have hb : (k == p.1) = false := by
        simp only [beq_eq_false_iff_ne, ne_eq]
        exact fun hk => h hk.symm
      rw [hb]
      simp

theorem parse_ann_elem_errs (attrs : List (String × String)) (children : List Xml) :
    (parse_ann_elem attrs children).1 = ann_violations attrs children := by
  cases h1 : attr attrs "name" <;> cases h2 : attr attrs "value" <;>
    simp [parse_ann_elem, ann_violations, h1, h2]

theorem parse_arg_children_errs (display : String) :
    ∀ l : List Xml,
      (parse_arg_children display l).1 = l.flatMap (arg_child_violations display) := by
  intro l
  induction l with
  | nil => rfl
  | cons c rest ih =>
    cases c with
    | comment s =>
      simp [parse_arg_children, arg_child_violations, ih]
    | elem t attrs children =>
      by_cases h1 : t = "annotation"
      · simp [parse_arg_children, arg_child_violations, h1, ih, parse_ann_elem_errs]
      · by_cases h2 : isDocTag t <;>
          simp [parse_arg_children, arg_child_violations, h1, h2, ih]

theorem parse_arg_elem_errs (index : Nat) (attrs : List (String × String))
    (children : List Xml) :
    (parse_arg_elem index attrs children).1 = arg_violations attrs children := by
  cases h : attr attrs "type" <;>
    simp [parse_arg_elem, arg_violations, h, parse_arg_children_errs]

theorem parse_member_children_errs (ctx : String) :
    ∀ (l : List Xml) (args : List ASTArgument) (anns : List (String × String)),
      (parse_member_children ctx args anns l).1 =
        l.flatMap (member_child_violations ctx) := by
  intro l
  induction l with
  | nil => intro args anns; rfl
  | cons c rest ih =>
    intro args anns
    cases c with
    | comment s =>
      simp [parse_member_children, member_child_violations, ih]
    | elem t attrs children =>
      by_cases h1 : t = "arg"
      · simp [parse_member_children, member_child_violations, h1, ih,
          parse_arg_elem_errs]
      · by_cases h2 : t = "annotation"
        · simp [parse_member_children, member_child_violations, h1, h2, ih,
            parse_ann_elem_errs]
        · by_cases h3 : isDocTag t <;>
            simp [parse_member_children, member_child_violations, h1, h2, h3, ih]

theorem parse_method_elem_errs (kind : String) (attrs : List (String × String))
    (children : List Xml) :
    (parse_method_elem kind attrs children).1 = method_violations kind attrs children := by
  cases h : attr attrs "name" <;>
    simp [parse_method_elem, method_violations, h, parse_member_children_errs]

theorem parse_prop_children_errs (pname : String) :
    ∀ (l : List Xml) (anns : List (String × String)),
      (parse_prop_children pname anns l).1 =
        l.flatMap (prop_child_violations pname) := by
  intro l
  induction l with
  | nil => intro anns; rfl
  | cons c rest ih =>
    intro anns
    cases c with
    | comment s =>
      simp [parse_prop_children, prop_child_violations, ih]
    | elem t attrs children =>
      by_cases h1 : t = "annotation"
      · simp [parse_prop_children, prop_child_violations, h1, ih, parse_ann_elem_errs]
      · by_cases h2 : isDocTag t <;>
          simp [parse_prop_children, prop_child_violations, h1, h2, ih]

theorem parse_prop_elem_errs (attrs : List (String × String)) (children : List Xml) :
    (parse_prop_elem attrs children).1 = property_violations attrs children := by
  cases h1 : attr attrs "name" <;> cases h2 : attr attrs "type" <;>
    cases h3 : attr attrs "access" <;>
      simp [parse_prop_elem, property_violations, h1, h2, h3, parse_prop_children_errs]

theorem parse_iface_children_errs :
    ∀ (l : List Xml) (acc : ASTInterface),
      (parse_iface_children acc l).1 =
        iface_children_violations acc.name
          ⟨acc.methods.map Prod.fst, acc.properties.map Prod.fst,
           acc.signals.map Prod.fst⟩ l := by
  intro l
  induction l with
  | nil => intro acc; rfl
  | cons c rest ih =>
    intro acc
    cases c with
    | comment s =>
      simp [parse_iface_children, iface_children_violations,
        iface_child_violations, iface_child_update, ih]
    | elem t attrs children =>
      by_cases h1 : t = "method"
      · subst h1
        cases hn : attr attrs "name" with
        | none =>
          simp [parse_iface_children, iface_children_violations,
            iface_child_violations, iface_child_update, parse_method_elem,
            method_violations, hn, ih]
        | some nm =>
          have hls := lookupAssoc_isSome acc.methods nm
          by_cases hdup : (lookupAssoc acc.methods nm).isSome = true
          · have hdup2 : (acc.methods.map Prod.fst).contains nm = true := by
              rw [← hls]; exact hdup
            simp only [parse_iface_children, iface_children_violations,
              iface_child_violations, iface_child_update, parse_method_elem,
              method_violations, hn, hdup, hdup2, ih,
              parse_member_children_errs, if_true, if_pos, List.append_assoc]
          · have hdup2 : (acc.methods.map Prod.fst).contains nm = false := by
              rw [← hls]; simpa using hdup
            simp only [parse_iface_children, iface_children_violations,
              iface_child_violations, iface_child_update, parse_method_elem,
              method_violations, hn, hdup, hdup2, ih,
              parse_member_children_errs, List.append_assoc]
            all_goals simp
      · by_cases h2 : t = "signal"
        · subst h2
          cases hn : attr attrs "name" with
          | none =>
            simp [parse_iface_children, iface_children_violations,
              iface_child_violations, iface_child_update, parse_method_elem,
              method_violations, h1, hn, ih]
          | some nm =>
            have hls := lookupAssoc_isSome acc.signals nm
            by_cases hdup : (lookupAssoc acc.signals nm).isSome = true
            · have hdup2 : (acc.signals.map Prod.fst).contains nm = true := by
                rw [← hls]; exact hdup
              simp only [parse_iface_children, iface_children_violations,
                iface_child_violations, iface_child_update, parse_method_elem,
                method_violations, hn, hdup, hdup2, ih,
                parse_member_children_errs, if_true, if_pos, List.append_assoc,
                if_neg h1]
            · have hdup2 : (acc.signals.map Prod.fst).contains nm = false := by
                rw [← hls]; simpa using hdup
              simp only [parse_iface_children, iface_children_violations,
                iface_child_violations, iface_child_update, parse_method_elem,
                method_violations, hn, hdup, hdup2, ih,
                parse_member_children_errs, List.append_assoc, if_neg h1]
              all_goals simp [h1]
        · by_cases h3 : t = "property"
          · subst h3
            cases hn : attr attrs "name" with
            | none =>
              simp [parse_iface_children, iface_children_violations,
                iface_child_violations, iface_child_update, parse_prop_elem,
                property_violations, h1, h2, hn, ih]
            | some nm =>
              cases hty : attr attrs "type" with
              | none =>
                simp [parse_iface_children, iface_children_violations,
                  iface_child_violations, iface_child_update, parse_prop_elem,
                  property_violations, h1, h2, hn, hty, ih,
                  parse_prop_children_errs]
              | some ty =>
                cases hac : attr attrs "access" with
                | none =>
                  simp [parse_iface_children, iface_children_violations,
                    iface_child_violations, iface_child_update, parse_prop_elem,
                    property_violations, h1, h2, hn, hty, hac, ih,
                    parse_prop_children_errs]
                | some ac =>
                  have hls := lookupAssoc_isSome acc.properties nm
                  by_cases hdup : (lookupAssoc acc.properties nm).isSome = true
                  · have hdup2 : (acc.properties.map Prod.fst).contains nm = true := by
                      rw [← hls]; exact hdup
                    simp only [parse_iface_children, iface_children_violations,
                      iface_child_violations, iface_child_update, parse_prop_elem,
                      property_violations, hn, hty, hac, hdup, hdup2, ih,
                      parse_prop_children_errs, if_true, if_pos,
                      List.append_assoc, if_neg h1, if_neg h2]
                    all_goals simp [h1, h2]
                  · have hdup2 : (acc.properties.map Prod.fst).contains nm = false := by
                      rw [← hls]; simpa using hdup
                    simp only [parse_iface_children, iface_children_violations,
                      iface_child_violations, iface_child_update, parse_prop_elem,
                      property_violations, hn, hty, hac, hdup, hdup2, ih,
                      parse_prop_children_errs, List.append_assoc,
                      if_neg h1, if_neg h2]
                    all_goals simp [h1, h2]
          · by_cases h4 : t = "annotation"
            · subst h4
              cases hn : attr attrs "name" with
              | none =>
                cases hv : attr attrs "value" with
                | none =>
                  simp [parse_iface_children, iface_children_violations,
                    iface_child_violations, iface_child_update, ann_violations,
                    parse_ann_elem, h1, h2, h3, hn, hv, ih]
                | some v =>
                  simp [parse_iface_children, iface_children_violations,
                    iface_child_violations, iface_child_update, ann_violations,
                    parse_ann_elem, h1, h2, h3, hn, hv, ih]
              | some nm =>
                cases hv : attr attrs "value" with
                | none =>
                  simp [parse_iface_children, iface_children_violations,
                    iface_child_violations, iface_child_update, ann_violations,
                    parse_ann_elem, h1, h2, h3, hn, hv, ih]
                | some v =>
                  simp [parse_iface_children, iface_children_violations,
                    iface_child_violations, iface_child_update, ann_violations,
                    parse_ann_elem, h1, h2, h3, hn, hv, ih]
            · by_cases h5 : isDocTag t <;>
                simp [parse_iface_children, iface_children_violations,
                  iface_child_violations, iface_child_update, h1, h2, h3, h4, h5, ih]

theorem parse_root_children_errs :
    ∀ (l : List Xml) (acc : List (String × ASTInterface)),
      (parse_root_children acc l).1 =
        root_children_violations (acc.map Prod.fst) l := by
  intro l
  induction l with
  | nil => intro acc; rfl
  | cons c rest ih =>
    intro acc
    cases c with
    | comment s =>
      simp [parse_root_children, root_children_violations,
        root_child_violations, root_child_update, ih]
    | elem t attrs children =>
      by_cases h1 : t = "interface"
      · subst h1
        cases hn : attr attrs "name" with
        | none =>
          simp [parse_root_children, root_children_violations,
            root_child_violations, root_child_update, hn, ih]
        | some nm =>
          have hls := lookupAssoc_isSome acc nm
          by_cases hdup : (lookupAssoc acc nm).isSome = true
          · have hdup2 : (acc.map Prod.fst).contains nm = true := by
              rw [← hls]; exact hdup
            simp only [parse_root_children, root_children_violations,
              root_child_violations, root_child_update, hn, hdup, hdup2, ih,
              parse_iface_children_errs, if_true, if_pos, List.append_assoc]
            all_goals simp
          · have hdup2 : (acc.map Prod.fst).contains nm = false := by
              rw [← hls]; simpa using hdup
            simp only [parse_root_children, root_children_violations,
              root_child_violations, root_child_update, hn, hdup, hdup2, ih,
              parse_iface_children_errs, List.append_assoc]
            all_goals simp
      · by_cases h2 : isDocTag t <;>
          simp [parse_root_children, root_children_violations,
            root_child_violations, root_child_update, h1, h2, ih]
theorem parse_doc_errs (doc : Xml) : (parse_doc doc).1 = doc_violations doc := by
  cases doc with
  | comment s => rfl
  | elem t attrs children =>
    by_cases h1 : t = "node"
    · simp [parse_doc, doc_violations, h1, parse_root_children_errs]
    · by_cases h2 : t = "tp:spec"
      · subst h2
        simp only [parse_doc, doc_violations, if_neg h1, if_pos rfl]
        cases hf : children.filter isNodeElem with
        | nil => rfl
        | cons x xs =>
          cases x with
          | comment s => cases xs <;> rfl
          | elem t2 a2 c2 =>
            cases xs with
            | nil => simp [parse_root_children_errs]
            | cons y ys => rfl
      · simp [parse_doc, doc_violations, h1, h2]

/-- C5: for every document with at least one grammar violation, recovery
parsing yields no usable interface mapping, and the Diagnostics Ledger
receives exactly one entry per violation, in document order, each under
that violation's stable code. -/
theorem c5_recovery_no_mapping (doc : Xml) (h : doc_violations doc ≠ []) :
    (parse_recover doc).1 = none ∧ (parse_recover doc).2 = doc_violations doc := by
  have herr : (parse_doc doc).1 = doc_violations doc := parse_doc_errs doc
  constructor
  · simp only [parse_recover]
    rw [if_neg]
    simp only [List.isEmpty_iff, herr]
    exact h
  · simp only [parse_recover, herr]

/-- Document of the C5 witness: the recovery test
`test_annotation_interface` — an interface holding an attribute-less
annotation and an attribute-less method, three independent violations. -/
def c5_w_doc : Xml :=
  .elem "node" []
    [.elem "interface" [("name", "I")]
      [.elem "annotation" [] [], .elem "method" [] []]]

theorem c5_recovery_no_mapping_witness :
    (parse_recover c5_w_doc).1 = none ∧
    (parse_recover c5_w_doc).2 =
      [("missing-attribute", "Missing required attribute ‘name’ in annotation."),
       ("missing-attribute", "Missing required attribute ‘value’ in annotation."),
       ("missing-attribute", "Missing required attribute ‘name’ in method.")] :=
  ⟨(c5_recovery_no_mapping c5_w_doc (by decide)).1,
   by rw [(c5_recovery_no_mapping c5_w_doc (by decide)).2]; decide⟩
